import Mathlib

/-!
Verification development for the amira_blender_rendering repository.

This file embeds, as Lean definitions, the pure computational content of:
  - scripts/render_dataset_RenderedObjects.py (the RenderedObjects CLI driver),
  - src/amira_blender_rendering/scenes/pandatable.py (the PandaTable scenario),
  - src/amira_blender_rendering/scenes/renderedobjectsbase.py (the base scene),
  - src/amira_blender_rendering/cli/render_dataset.py (the workstation CLI driver),
  - src/amira_blender_rendering/nodes/material_metal_tool_cap.py (shader builder),
and proves or refutes the frozen behavioural claims about them.

Stateful interactions with the host application (blender) are embedded as
explicit event traces or explicit state records; Python floats computing
`ceil(log(...))` are modelled by the exact real-valued logarithm.
-/

namespace ABR

/-! ## Generic string helpers

`padNum w x` models the Python format expression `"{:0{width}d}".format(x, width=w)`
(and the equivalent f-string `f"{x:0{w}}"` used for id masks): the decimal
representation of `x`, left-padded with the character 0 up to length `w`.
-/

/-- Zero-pad the decimal representation of `x` to width `w`, as Python
`"{:0{width}d}".format(x, width=w)` does (no truncation if the number is wider). -/
def padNum (w : Nat) (x : Nat) : String :=
  let s := toString x
  String.mk (List.replicate (w - s.length) '0') ++ s

/-- Check whether `needle` occurs as a contiguous sublist of `hay`. -/
def listContains (hay needle : List Char) : Bool :=
  match hay with
  | [] => needle.isEmpty
  | _ :: t => needle.isPrefixOf hay || listContains t needle

/-- Check whether string `needle` occurs as a substring of `hay`. -/
def strContains (hay needle : String) : Bool :=
  listContains hay.data needle.data

theorem isPrefixOf_append (l post : List Char) : l.isPrefixOf (l ++ post) = true := by
  induction l with
  | nil => simp [List.isPrefixOf]
  | cons a as ih => simp [List.isPrefixOf, ih]

theorem listContains_self_append (s post : List Char) :
    listContains (s ++ post) s = true := by
  cases s with
  | nil =>
    cases post with
    | nil => rfl
    | cons c t => simp [listContains]
  | cons c t =>
    simp only [List.cons_append, listContains]
    rw [← List.cons_append, isPrefixOf_append (c :: t) post]
    simp

theorem listContains_append_right (pre ys needle : List Char)
    (h : listContains ys needle = true) :
    listContains (pre ++ ys) needle = true := by
  induction pre with
  | nil => simpa using h
  | cons a as ih =>
    simp only [List.cons_append, listContains, List.append_eq]
    rw [ih]
    simp

theorem strContains_sandwich (pre s post : String) :
    strContains (pre ++ s ++ post) s = true := by
  show listContains (pre ++ s ++ post).data s.data = true
  have h : (pre ++ s ++ post).data = pre.data ++ (s.data ++ post.data) := by
    simp [String.data_append, List.append_assoc]
  rw [h]
  exact listContains_append_right _ _ _ (listContains_self_append _ _)

theorem strContains_suffix_self (pre s : String) :
    strContains (pre ++ s) s = true := by
  show listContains (pre ++ s).data s.data = true
  rw [String.data_append]
  apply listContains_append_right
  have h := listContains_self_append s.data []
  simpa using h

theorem strContains_append_right (pre tail needle : String)
    (h : strContains tail needle = true) :
    strContains (pre ++ tail) needle = true := by
  show listContains (pre ++ tail).data needle.data = true
  rw [String.data_append]
  exact listContains_append_right _ _ _ h

/-! ## RenderedObjectsBase.reorder_bbox

Embedding of `renderedobjectsbase.py`, lines 178 to 188: on a list whose
length is not 8 the method raises a RuntimeError with a message naming the
actual length; otherwise it appends `aabb[order[i]]` for `i` in `range(8)`
under the default order `[1, 0, 2, 3, 5, 4, 6, 7]`.  The raised exception is
embedded as `Except.error` carrying the message text.
-/

/-- Error message of `reorder_bbox`, from the f-string at line 182. -/
def reorder_bbox_err (len : Nat) : String :=
  "Unexpected length of aabb (is " ++ toString len ++ ", should be 8)"

/-- The default vertex permutation order of `reorder_bbox`. -/
def bbox_order : List Nat := [1, 0, 2, 3, 5, 4, 6, 7]

/-- Embedding of `RenderedObjectsBase.reorder_bbox` with its default `order`
argument.  `Inhabited` supplies the (never used) fallback for list indexing:
with the length guard passed, every index in `bbox_order` is in range. -/
def reorder_bbox {α : Type} [Inhabited α] (aabb : List α) : Except String (List α) :=
  if aabb.length ≠ 8 then
    Except.error (reorder_bbox_err aabb.length)
  else
    Except.ok (bbox_order.map fun i => aabb.getD i default)

/-- C5: For every input list of length different from 8, `reorder_bbox` raises
a length error; for every input list of exactly 8 vertices it returns the
positional permutation `result[i] = input[order[i]]` under the fixed order
`[1,0,2,3,5,4,6,7]`, so input `[A,B,C,D,E,F,G,H]` maps to `[B,A,C,D,F,E,G,H]`. -/
theorem reorder_bbox_spec :
    (∀ (α : Type) [Inhabited α] (l : List α), l.length ≠ 8 →
      reorder_bbox l = Except.error (reorder_bbox_err l.length)) ∧
    (∀ (α : Type) [Inhabited α] (a b c d e f g h : α),
      reorder_bbox [a, b, c, d, e, f, g, h] = Except.ok [b, a, c, d, f, e, g, h]) ∧
    (∀ (α : Type) [Inhabited α] (l : List α), l.length = 8 → ∀ (i : Nat), i < 8 → ∀ (res : List α),
      reorder_bbox l = Except.ok res →
      res.getD i default = l.getD (bbox_order.getD i 0) default) := by
  refine ⟨?_, ?_, ?_⟩
  · intro α _ l h
    simp [reorder_bbox, h]
  · intro α _ a b c d e f g h
    rfl
  · intro α _ l hl i hi res hres
    have h8 : ¬ l.length ≠ 8 := by simp [hl]
    simp only [reorder_bbox, h8, if_false] at hres
    cases hres
    interval_cases i <;> rfl


/-- Witness for `reorder_bbox_spec` at concrete inputs: a length-3 list errors
with the message naming length 3, and `[10,20,30,40,50,60,70,80]` maps to the
stated permutation; the positional law holds at index 0. -/
theorem reorder_bbox_spec_witness :
    reorder_bbox ([1, 2, 3] : List Nat) = Except.error (reorder_bbox_err 3) ∧
    reorder_bbox ([10, 20, 30, 40, 50, 60, 70, 80] : List Nat) =
      Except.ok [20, 10, 30, 40, 60, 50, 70, 80] ∧
    ([20, 10, 30, 40, 60, 50, 70, 80] : List Nat).getD 0 default =
      ([10, 20, 30, 40, 50, 60, 70, 80] : List Nat).getD (bbox_order.getD 0 0) default := by
  refine ⟨?_, ?_, ?_⟩
  · exact reorder_bbox_spec.1 Nat [1, 2, 3] (by decide)
  · exact reorder_bbox_spec.2.1 Nat 10 20 30 40 50 60 70 80
  · exact reorder_bbox_spec.2.2 Nat [10, 20, 30, 40, 50, 60, 70, 80] (by decide) 0 (by decide)
      [20, 10, 30, 40, 60, 50, 70, 80]
      (reorder_bbox_spec.2.1 Nat 10 20 30 40 50 60 70 80)

/-! ## RenderedObjectsBase.convert_units

Embedding of `renderedobjectsbase.py`, lines 121 to 132.  A
`PoseRenderResult` (from the companion aps library, as constructed in
`save_annotations` at line 143) carries the object name, rotation `R`,
translation `t`, 2D corners, projected 3D corners, and the axis-aligned and
object-oriented boxes; the image fields passed as None are omitted.  The
configured `unit_conversion` is an optional function applied to exactly the
`t`, `aabb` and `oobb` fields.
-/

/-- The fields of a pose render result that `convert_units` operates on.
`V` is the numeric payload type (vectors and corner arrays). -/
structure PoseRenderResult (V : Type) where
  name : String
  R : V
  t : V
  corners2d : V
  corners3d : V
  aabb : V
  oobb : V

/-- Embedding of `RenderedObjectsBase.convert_units`: identity when no
conversion function is configured, otherwise the function is applied to the
translation, axis-aligned box and object-oriented box fields. -/
def convert_units {V : Type} (unit_conversion : Option (V → V))
    (render_result : PoseRenderResult V) : PoseRenderResult V :=
  match unit_conversion with
  | none => render_result
  | some f =>
      { render_result with
          t := f render_result.t
          aabb := f render_result.aabb
          oobb := f render_result.oobb }

/-- C8: With no configured conversion function, `convert_units` returns its
input unchanged in every field; with a configured function it applies the
function to exactly the translation, axis-aligned box and object-oriented box
fields, leaving name, rotation, 2D corners and projected 3D corners unchanged. -/
theorem convert_units_spec :
    (∀ (V : Type) (r : PoseRenderResult V), convert_units none r = r) ∧
    (∀ (V : Type) (f : V → V) (r : PoseRenderResult V),
      (convert_units (some f) r).t = f r.t ∧
      (convert_units (some f) r).aabb = f r.aabb ∧
      (convert_units (some f) r).oobb = f r.oobb ∧
      (convert_units (some f) r).name = r.name ∧
      (convert_units (some f) r).R = r.R ∧
      (convert_units (some f) r).corners2d = r.corners2d ∧
      (convert_units (some f) r).corners3d = r.corners3d) := by
  constructor
  · intro V r
    rfl
  · intro V f r
    exact ⟨rfl, rfl, rfl, rfl, rfl, rfl, rfl⟩

/-! ## Filename width in generate_dataset

Embedding of `scripts/render_dataset_RenderedObjects.py` line 140 and of
`pandatable.py` line 434, both of which compute
`format_width = int(ceil(log(image_count, 10)))`, and of the per-image
filename `base_filename = "{:0{width}d}".format(i, width=format_width)`
(script line 162, pandatable line 441).  The Python float expression
`ceil(log(n, 10))` is modelled by the exact real logarithm in base 10.
-/

/-- Embedding of `int(ceil(log(n, 10)))`: the ceiling of the base-10 real
logarithm (a natural number, since the argument is a positive image count).
Python evaluates the expression in floating point; the claims exercise only
small counts, where the float and the exact value agree. -/
noncomputable def format_width (n : Nat) : Nat :=
  ⌈Real.logb 10 n⌉₊

/-- Embedding of the per-image filename `"{:0{width}d}".format(i, width=format_width)`. -/
noncomputable def base_filename (n i : Nat) : String :=
  padNum (format_width n) i

/-- For positive counts, the real-ceiling width agrees with the integer
ceiling logarithm `Nat.clog 10`, the least `w` with `n ≤ 10 ^ w`. -/
theorem format_width_eq_clog (n : Nat) (hn : 1 ≤ n) :
    format_width n = Nat.clog 10 n := by
  have hnpos : (0 : Real) < n := by exact_mod_cast hn
  apply Nat.le_antisymm
  · rw [format_width, Nat.ceil_le]
    have h10 : (1 : Real) < 10 := by norm_num
    rw [Real.logb_le_iff_le_rpow h10 hnpos]
    have hle : n ≤ 10 ^ Nat.clog 10 n :=
      (Nat.le_pow_iff_clog_le (by norm_num)).mpr le_rfl
    have : (n : Real) ≤ ((10 ^ Nat.clog 10 n : Nat) : Real) := by exact_mod_cast hle
    calc (n : Real) ≤ ((10 ^ Nat.clog 10 n : Nat) : Real) := this
      _ = (10 : Real) ^ (Nat.clog 10 n : Real) := by
          rw [Real.rpow_natCast]
          push_cast
          ring
  · rw [← Nat.le_pow_iff_clog_le (by norm_num)]
    have h10 : (1 : Real) < 10 := by norm_num
    have h1 : Real.logb 10 n ≤ (format_width n : Real) := Nat.le_ceil _
    have h2 : (n : Real) ≤ (10 : Real) ^ (format_width n : Real) :=
      (Real.logb_le_iff_le_rpow h10 hnpos).mp h1
    have h3 : (n : Real) ≤ ((10 ^ format_width n : Nat) : Real) := by
      calc (n : Real) ≤ (10 : Real) ^ (format_width n : Real) := h2
        _ = ((10 ^ format_width n : Nat) : Real) := by
            rw [Real.rpow_natCast]
            push_cast
            ring
    exact_mod_cast h3

theorem format_width_one : format_width 1 = 0 := by
  rw [format_width_eq_clog 1 le_rfl]
  exact Nat.clog_one_right 10

theorem format_width_ten : format_width 10 = 1 := by
  rw [format_width_eq_clog 10 (by norm_num)]
  exact Nat.clog_eq_one (by norm_num) le_rfl

theorem format_width_hundred : format_width 100 = 2 := by
  rw [format_width_eq_clog 100 (by norm_num)]
  have h := Nat.clog_pow 10 2 (by norm_num)
  norm_num at h
  exact h

/-- C1 counterexample: with `image_count = 10` the filename of image index 0
is the width-1 string 0, not the width-2 string 00 required by the claim
(which asserted N=10 produces filenames 00 through 09). -/
theorem c1_counterexample :
    base_filename 10 0 = "0" ∧ base_filename 10 0 ≠ "00" := by
  have h : base_filename 10 0 = "0" := by
    rw [base_filename, format_width_ten]
    rfl
  exact ⟨h, by rw [h]; decide⟩

/-- C1 amended: the zero-padded filename width computed by `generate_dataset`
equals the integer ceiling of log base 10 of N (the least `w` with
`N ≤ 10 ^ w`); in particular N=1 yields computed width 0 (filename 0 of
length 1), N=10 yields width-1 filenames 0 through 9, and N=100 yields
width-2 filenames 00 through 99. -/
theorem c1_amended :
    (∀ n : Nat, 1 ≤ n → format_width n = Nat.clog 10 n) ∧
    format_width 1 = 0 ∧ format_width 10 = 1 ∧ format_width 100 = 2 ∧
    base_filename 1 0 = "0" ∧
    base_filename 10 0 = "0" ∧ base_filename 10 9 = "9" ∧
    base_filename 100 0 = "00" ∧ base_filename 100 99 = "99" := by
  refine ⟨format_width_eq_clog, format_width_one, format_width_ten, format_width_hundred,
    ?_, ?_, ?_, ?_, ?_⟩
  · rw [base_filename, format_width_one]; rfl
  · rw [base_filename, format_width_ten]; rfl
  · rw [base_filename, format_width_ten]; rfl
  · rw [base_filename, format_width_hundred]; rfl
  · rw [base_filename, format_width_hundred]; rfl

/-- Witness for `c1_amended`: the universally quantified clause applied at the
concrete count 7, its positivity hypothesis discharged by computation. -/
theorem c1_amended_witness : format_width 7 = Nat.clog 10 7 :=
  c1_amended.1 7 (by norm_num)

/-! ## determine_scene_type in the workstation CLI

Embedding of `cli/render_dataset.py`, lines 147 to 159.  The code scans the
configuration file line by line with the regular expression
`^\s*scene_type\s*=\s*(.*)\s*$` compiled with IGNORECASE, keeping the capture
group of every matching line (so the last match wins), and raises a
RuntimeError when no line matched.  A file is modelled as its list of lines,
each without the trailing newline; since the capture group `(.*)` is greedy
and cannot cross the newline, it captures the full remainder of the line
(the trailing `\s*$` matches the empty string).
-/

/-- The characters matched by the regular expression class `\s` (Python ASCII
whitespace): space, tab, newline, carriage return, vertical tab, form feed. -/
def isPySpace (c : Char) : Bool :=
  c = ' ' || c = '\t' || c = '\n' || c = '\r' || c = Char.ofNat 11 || c = Char.ofNat 12

/-- Match `pat` against the head of `cs` ignoring case; return the remainder
on success.  Models the IGNORECASE literal part of the pattern. -/
def stripCaseInsensitive : List Char → List Char → Option (List Char)
  | [], cs => some cs
  | _ :: _, [] => none
  | p :: ps, c :: cs => if p.toLower = c.toLower then stripCaseInsensitive ps cs else none

/-- Embedding of one application of
`re.compile(r'^\s*scene_type\s*=\s*(.*)\s*$', re.IGNORECASE).match(line)`:
returns the capture group when the line matches. -/
def scene_type_line_match (line : String) : Option String :=
  let cs := line.data.dropWhile isPySpace
  match stripCaseInsensitive "scene_type".data cs with
  | none => none
  | some rest =>
    match rest.dropWhile isPySpace with
    | '=' :: rest2 => some (String.mk (rest2.dropWhile isPySpace))
    | _ => none

/-- Error message raised when no line declares a scene type, from line 158. -/
def scene_type_missing_msg : String :=
  "scene_type missing from configuration file. Is your config valid?"

/-- Embedding of `determine_scene_type`: fold over the file lines, keeping the
capture of the last matching line; error when no line matched. -/
def determine_scene_type (lines : List String) : Except String String :=
  match lines.foldl
      (fun acc line =>
        match scene_type_line_match line with
        | some v => some v
        | none => acc)
      none with
  | none => Except.error scene_type_missing_msg
  | some v => Except.ok v

theorem determine_scene_type_fold (lines : List String) (acc : Option String) :
    lines.foldl
        (fun acc line =>
          match scene_type_line_match line with
          | some v => some v
          | none => acc)
        acc
      = ((lines.filterMap scene_type_line_match).getLast?).orElse (fun _ => acc) := by
  induction lines generalizing acc with
  | nil => simp
  | cons l ls ih =>
    simp only [List.foldl_cons, List.filterMap_cons]
    cases h : scene_type_line_match l with
    | none => simp [h, ih]
    | some v =>
      simp only [h, ih]
      cases hm : ls.filterMap scene_type_line_match with
      | nil => simp [Option.orElse]
      | cons a t =>
        rw [List.getLast?_cons_cons]
        cases hg : (a :: t).getLast? with
        | none => simp [List.getLast?_eq_none_iff] at hg
        | some x => simp [Option.orElse]

/-- C10: `determine_scene_type` returns the captured value of the last line
matching the case-insensitive pattern `scene_type = value` (surrounded by
arbitrary whitespace), so the final occurrence silently wins across sections,
and it raises a fatal error exactly when no line matches.  Illustrated on a
two-section file where the later, differently-cased declaration wins, and on
a file with no declaration. -/
theorem determine_scene_type_spec :
    (∀ lines : List String,
      determine_scene_type lines =
        match (lines.filterMap scene_type_line_match).getLast? with
        | none => Except.error scene_type_missing_msg
        | some v => Except.ok v) ∧
    determine_scene_type ["[dataset]", "scene_type = PandaTable", "[other]",
        "  SCENE_TYPE=WorkstationScenarios"] = Except.ok "WorkstationScenarios" ∧
    determine_scene_type ["[dataset]", "image_count = 3"] =
      Except.error scene_type_missing_msg := by
  refine ⟨?_, ?_, ?_⟩
  · intro lines
    rw [determine_scene_type, determine_scene_type_fold]
    cases h : (lines.filterMap scene_type_line_match).getLast? with
    | none => simp [Option.orElse]
    | some v => simp [Option.orElse]
  · rfl
  · rfl

/-! ## The RenderedObjects CLI driver

Embedding of `scripts/render_dataset_RenderedObjects.py`.  `get_scene_type`
(lines 85 to 110) resolves a scene-type string against a built-in table and
raises an exception naming the string and the known set.  `generate_dataset`
(lines 122 to 184) returns `(False, None)` for a non-positive image count,
otherwise sets up the renderer (which writes the sample count into the host
scene), resolves environment textures, resolves the scene type when no scene
was passed in, and runs the per-image loop, retrying any frame whose
postprocessing raised a ValueError.  Side effects are embedded as an event
trace; the per-frame postprocessing outcomes are an input list of booleans
(one per loop iteration), and exhausting that list models non-termination,
returning `none`.
-/

/-- Side effects performed by the RenderedObjects CLI driver, in order. -/
inductive AEvent where
  | setupRenderer
  | envTextures
  | instantiateScene
  | updateDirinfo
  | setFilename (i : Nat)
  | setEnvTexture
  | randomize
  | render
  | postprocessOk
  | postprocessErr
  | reset
deriving DecidableEq, Repr

/-- Whether an event mutates the host-application scene state.
`setupRenderer` does: it activates CUDA devices and assigns
`bpy.context.scene.cycles.samples` (script lines 113 to 119).  Reading the
environment-texture directory, rendering to files and postprocessing
(file reads plus a JSON write) do not edit the scene graph. -/
def AEvent.mutates_host_scene : AEvent → Bool
  | AEvent.setupRenderer => true
  | AEvent.envTextures => false
  | AEvent.instantiateScene => true
  | AEvent.updateDirinfo => true
  | AEvent.setFilename _ => true
  | AEvent.setEnvTexture => true
  | AEvent.randomize => true
  | AEvent.render => false
  | AEvent.postprocessOk => false
  | AEvent.postprocessErr => false
  | AEvent.reset => true

/-- The configuration keys of the RenderedObjects CLI that the embedded
control flow depends on. -/
structure AConfig where
  image_count : Int
  scene_type : String

/-- The scene-type registry of the RenderedObjects CLI (script lines 101 to 106),
in declaration order. -/
def scene_types_A : List String :=
  ["SimpleToolCap", "SimpleLetterB", "PandaTable", "ClutteredPandaTable"]

/-- Wrap a string in single-quote characters, as Python `str` does for the
elements of a list of strings. -/
def squote (s : String) : String :=
  String.singleton (Char.ofNat 39) ++ s ++ String.singleton (Char.ofNat 39)

/-- Embedding of `str([k for k in scene_types.keys()])[1:-1]` (script line 108):
the known keys, single-quoted and comma-separated. -/
def known_types_str : String :=
  String.intercalate ", " (scene_types_A.map squote)

/-- The exception message of `get_scene_type` (script line 109). -/
def scene_type_err_msg (type_str : String) : String :=
  "Scene type " ++ type_str ++
    (" not known. Known types: " ++ known_types_str ++
      ". Note that scene types are case sensitive.")

/-- Embedding of `get_scene_type` (script lines 85 to 110): dictionary lookup
with a raised exception for unknown keys. -/
def get_scene_type (type_str : String) : Except String String :=
  if scene_types_A.contains type_str then Except.ok type_str
  else Except.error (scene_type_err_msg type_str)

/-- Embedding of the `while i < image_count` loop of `generate_dataset`
(script lines 159 to 181).  Each iteration consumes one postprocessing
outcome; the counter advances only on success.  Returns the list of image
indices produced and the event trace; `none` models exhausting the supplied
outcomes with the loop still running (the code would keep retrying). -/
def loop_A (n : Nat) : Nat → List Bool → Option (List Nat × List AEvent)
  | i, [] => if n ≤ i then some ([], []) else none
  | i, true :: rest =>
    if n ≤ i then some ([], [])
    else
      match loop_A n (i + 1) rest with
      | none => none
      | some (p, e) =>
          some (i :: p,
            ([AEvent.setFilename i, AEvent.setEnvTexture, AEvent.randomize, AEvent.render,
              AEvent.postprocessOk] : List AEvent) ++ e)
  | i, false :: rest =>
    if n ≤ i then some ([], [])
    else
      match loop_A n i rest with
      | none => none
      | some (p, e) =>
          some (p,
            ([AEvent.setFilename i, AEvent.setEnvTexture, AEvent.randomize, AEvent.render,
              AEvent.postprocessErr] : List AEvent) ++ e)

/-- Embedding of `generate_dataset` (script lines 122 to 184).
`scene_provided` tells whether a scene object was passed in (in which case no
scene-type resolution happens and the existing scene is re-bound via
`update_dirinfo`).  The result carries the returned pair — `(False, None)` or
`(True, scene.reset())`, the reset scene abstracted to `some ()` — or the
propagated exception, together with the event trace. -/
def generate_dataset (cfg : AConfig) (scene_provided : Bool) (outcomes : List Bool) :
    Option (Except String (Bool × Option Unit) × List AEvent) :=
  if cfg.image_count ≤ 0 then some (Except.ok (false, none), [])
  else
    let pre : List AEvent := [AEvent.setupRenderer, AEvent.envTextures]
    if scene_provided then
      match loop_A cfg.image_count.toNat 0 outcomes with
      | none => none
      | some (_, evs) =>
          some (Except.ok (true, some ()),
            pre ++ (AEvent.updateDirinfo :: (evs ++ [AEvent.reset])))
    else
      match get_scene_type cfg.scene_type with
      | Except.error msg => some (Except.error msg, pre)
      | Except.ok _ =>
        match loop_A cfg.image_count.toNat 0 outcomes with
        | none => none
        | some (_, evs) =>
            some (Except.ok (true, some ()),
              pre ++ (AEvent.instantiateScene :: (evs ++ [AEvent.reset])))

/-! ## The workstation CLI driver

Embedding of `cli/render_dataset.py`, `main` (lines 162 to 228): after
argument parsing and library import (neither of which touches the host
scene), the scene type is peeked from the configuration file via
`determine_scene_type`, checked case-insensitively against the registry of
`get_scene_types` (lines 137 to 144), and only then are the configuration and
the scene instantiated, the configuration dumped, and generation run.  The
generation outcome is abstracted as a boolean parameter; a reported failure
is logged but not fatal.
-/

/-- The scene-type registry of the workstation CLI (lines 137 to 144). -/
def scene_types_B : List String :=
  ["SimpleToolCap", "WorkstationScenarios", "PandaTable"]

/-- The RuntimeError message for an unknown scene type (line 182). -/
def unknown_scene_type_msg (s : String) : String :=
  "Invalid configuration: Unknown scene_type " ++ s

/-- Coarse side effects of the workstation CLI `main`, in order.  All of them
happen strictly after the scene-type check at line 181. -/
inductive BEvent where
  | instantiateConfig
  | parseConfig
  | instantiateScene
  | dumpConfig
  | generate
  | teardown
deriving DecidableEq, Repr

/-- Whether a workstation CLI event mutates the host-application scene:
instantiating the scene loads the blend file and populates it, and
generation randomizes and renders; the other steps are configuration or
file-output work. -/
def BEvent.mutates_host_scene : BEvent → Bool
  | BEvent.instantiateScene => true
  | BEvent.generate => true
  | _ => false

/-- Lower-case a string character by character, modelling Python `str.lower`
(the strings involved are ASCII scene-type names). -/
def str_lower (s : String) : String :=
  String.mk (s.data.map Char.toLower)

/-- Embedding of the scene-type validation of `main` (lines 179 to 182):
peek `scene_type` from the file, then check it (lower-cased) against the
lower-cased registry keys. -/
def main_scene_type_check (lines : List String) : Except String String :=
  match determine_scene_type lines with
  | Except.error e => Except.error e
  | Except.ok s =>
    if (scene_types_B.map str_lower).contains (str_lower s) then Except.ok s
    else Except.error (unknown_scene_type_msg s)

/-- Embedding of the workstation CLI `main` from the scene-type check onward
(lines 179 to 228), with the generation outcome abstracted as `gen_success`.
An unknown scene type raises before any of the downstream events occurs. -/
def workstation_main (lines : List String) (gen_success : Bool) :
    Except String Bool × List BEvent :=
  match main_scene_type_check lines with
  | Except.error e => (Except.error e, [])
  | Except.ok _ =>
      (Except.ok gen_success,
        [BEvent.instantiateConfig, BEvent.parseConfig, BEvent.instantiateScene,
         BEvent.dumpConfig, BEvent.generate, BEvent.teardown])

/-- C3 counterexample: in the workstation CLI, the error raised for the
unknown scene type FooScene does not name the set of known scene types — none
of the registry names occurs in the message — refuting the claim that in both
CLI drivers the error message names the full set of known scene types. -/
theorem c3_counterexample :
    workstation_main ["scene_type = FooScene"] true =
      (Except.error "Invalid configuration: Unknown scene_type FooScene", []) ∧
    strContains "Invalid configuration: Unknown scene_type FooScene" "SimpleToolCap" = false ∧
    strContains "Invalid configuration: Unknown scene_type FooScene" "WorkstationScenarios" = false ∧
    strContains "Invalid configuration: Unknown scene_type FooScene" "PandaTable" = false := by
  refine ⟨by rfl, by decide, by decide, by decide⟩

/-- C3 amended: an unknown scene-type string makes dataset generation fail
with an error in both CLI drivers, and the error always names the offending
string; but in the RenderedObjects CLI the message additionally names the
full known set while the failure happens only after renderer setup has
already mutated the host scene render settings, whereas in the workstation
CLI the failure precedes every host-scene mutation but the message does not
include the known set. -/
theorem c3_amended :
    (∀ (cfg : AConfig) (outcomes : List Bool),
      scene_types_A.contains cfg.scene_type = false →
      1 ≤ cfg.image_count →
      generate_dataset cfg false outcomes =
        some (Except.error (scene_type_err_msg cfg.scene_type),
          [AEvent.setupRenderer, AEvent.envTextures]) ∧
      strContains (scene_type_err_msg cfg.scene_type) cfg.scene_type = true ∧
      (∀ k ∈ scene_types_A, strContains (scene_type_err_msg cfg.scene_type) k = true) ∧
      AEvent.setupRenderer.mutates_host_scene = true) ∧
    (∀ (lines : List String) (s : String) (g : Bool),
      determine_scene_type lines = Except.ok s →
      (scene_types_B.map str_lower).contains (str_lower s) = false →
      workstation_main lines g = (Except.error (unknown_scene_type_msg s), []) ∧
      strContains (unknown_scene_type_msg s) s = true ∧
      (∀ e : BEvent, e ∉ ([] : List BEvent))) := by
  constructor
  · intro cfg outcomes hunknown hpos
    have hneg : ¬ cfg.image_count ≤ 0 := by omega
    refine ⟨?_, ?_, ?_, rfl⟩
    · simp only [generate_dataset, hneg, if_false, Bool.false_eq_true, get_scene_type,
        hunknown, if_neg]
    · exact strContains_sandwich "Scene type " cfg.scene_type _
    · intro k hk
      have happ : scene_type_err_msg cfg.scene_type =
          ("Scene type " ++ cfg.scene_type) ++
            (" not known. Known types: " ++ known_types_str ++
              ". Note that scene types are case sensitive.") := rfl
      rw [happ]
      apply strContains_append_right
      fin_cases hk <;> decide
  · intro lines s g hdet hunknown
    refine ⟨?_, ?_, ?_⟩
    · simp only [workstation_main, main_scene_type_check, hdet, hunknown,
        Bool.false_eq_true, if_false]
    · exact strContains_suffix_self "Invalid configuration: Unknown scene_type " s
    · intro e he
      simp at he

/-- Witness for `c3_amended` at concrete inputs: the RenderedObjects CLI
message for FooScene names the registry entry PandaTable, and the workstation
CLI message for the unknown scene type Foo names Foo. -/
theorem c3_amended_witness :
    strContains (scene_type_err_msg "FooScene") "PandaTable" = true ∧
    strContains (unknown_scene_type_msg "Foo") "Foo" = true :=
  ⟨(c3_amended.1 ⟨1, "FooScene"⟩ [] (by decide) (by norm_num)).2.2.1 "PandaTable" (by decide),
   (c3_amended.2 ["scene_type = Foo"] "Foo" true rfl (by decide)).2.1⟩

/-! ## PandaTable.generate_dataset

Embedding of `pandatable.py`, lines 425 to 484.  The loop body randomizes the
environment texture and object transforms and forward-simulates physics; a
failed visibility test marks the frame for repetition (after a debug scene
dump); otherwise each configured camera is activated, bound in the
compositor, rendered and postprocessed, a ValueError during postprocessing
marking the frame for repetition and aborting the remaining cameras.  The
image counter advances only when the frame was not marked.  A frame is
modelled as the pair of its visibility-test result and its per-camera
postprocessing outcomes.
-/

/-- Side effects of one PandaTable generation step, in order. -/
inductive PEvent where
  | randEnvTexture
  | randTransforms
  | forwardSim
  | saveDebugBlend
  | activateCam
  | setupPathspec
  | render
  | postprocessOk
  | postprocessErr
deriving DecidableEq, Repr

/-- Whether a frame completes without being marked for repetition: the
visibility test passed and every camera postprocessed successfully. -/
def frame_ok (vis : Bool) (cams : List Bool) : Bool :=
  vis && cams.all (fun b => b)

/-- Events of the per-camera loop (lines 456 to 478): cameras are processed
in order; the first postprocessing error aborts the remaining cameras. -/
def cam_events : List Bool → List PEvent
  | [] => []
  | ok :: rest =>
    [PEvent.activateCam, PEvent.setupPathspec, PEvent.render,
      if ok then PEvent.postprocessOk else PEvent.postprocessErr] ++
    (if ok then cam_events rest else [])

/-- Events of one frame attempt (lines 443 to 478). -/
def frame_events (vis : Bool) (cams : List Bool) : List PEvent :=
  [PEvent.randEnvTexture, PEvent.randTransforms, PEvent.forwardSim] ++
  (if vis then cam_events cams else [PEvent.saveDebugBlend])

/-- Embedding of the `while i < self.config.dataset.image_count` loop
(lines 436 to 482): each attempt consumes one frame outcome, and the counter
advances exactly when the frame was not marked for repetition.  Returns the
produced image indices and the event trace; `none` models exhausting the
supplied frames with the loop still running. -/
def panda_loop (n : Nat) : Nat → List (Bool × List Bool) → Option (List Nat × List PEvent)
  | i, [] => if n ≤ i then some ([], []) else none
  | i, f :: rest =>
    if n ≤ i then some ([], [])
    else
      match panda_loop n (if frame_ok f.1 f.2 then i + 1 else i) rest with
      | none => none
      | some (p, e) =>
          some ((if frame_ok f.1 f.2 then [i] else []) ++ p, frame_events f.1 f.2 ++ e)

/-- Embedding of `PandaTable.generate_dataset` (lines 425 to 484): returns
`False` immediately for a non-positive image count (before computing the
format width or running any loop iteration), `True` after the loop
terminates. -/
def panda_generate_dataset (image_count : Int) (frames : List (Bool × List Bool)) :
    Option (Bool × List PEvent) :=
  if image_count ≤ 0 then some (false, [])
  else
    match panda_loop image_count.toNat 0 frames with
    | none => none
    | some (_, evs) => some (true, evs)

theorem loop_A_produces (n : Nat) (outcomes : List Bool) :
    ∀ (i : Nat) (p : List Nat) (e : List AEvent),
      loop_A n i outcomes = some (p, e) →
      p = List.range' i (n - i) ∧ e.count AEvent.postprocessOk = n - i := by
  induction outcomes with
  | nil =>
    intro i p e h
    simp only [loop_A] at h
    by_cases hni : n ≤ i
    · rw [if_pos hni] at h
      cases h
      have h0 : n - i = 0 := by omega
      simp [h0]
    · rw [if_neg hni] at h
      cases h
  | cons ok rest ih =>
    intro i p e h
    cases ok
    case false =>
      simp only [loop_A] at h
      by_cases hni : n ≤ i
      · rw [if_pos hni] at h
        cases h
        have h0 : n - i = 0 := by omega
        simp [h0]
      · rw [if_neg hni] at h
        cases hrec : loop_A n i rest with
        | none => rw [hrec] at h; cases h
        | some pe =>
          rw [hrec] at h
          obtain ⟨p1, e1⟩ := pe
          obtain ⟨hp1, he1⟩ := ih i p1 e1 hrec
          cases h
          refine ⟨hp1, ?_⟩
          simp only [List.count_append, List.count_cons, List.count_nil]
          rw [he1]
          simp
    case true =>
      simp only [loop_A] at h
      by_cases hni : n ≤ i
      · rw [if_pos hni] at h
        cases h
        have h0 : n - i = 0 := by omega
        simp [h0]
      · rw [if_neg hni] at h
        cases hrec : loop_A n (i + 1) rest with
        | none => rw [hrec] at h; cases h
        | some pe =>
          rw [hrec] at h
          obtain ⟨p1, e1⟩ := pe
          obtain ⟨hp1, he1⟩ := ih (i + 1) p1 e1 hrec
          cases h
          have hn : n - i = (n - (i + 1)) + 1 := by omega
          constructor
          · rw [hp1, hn, List.range'_succ]
          · simp only [List.count_append, List.count_cons, List.count_nil]
            rw [he1, hn]
            simp only [beq_self_eq_true, if_true]
            have hz : ∀ j : Nat, (AEvent.setFilename j == AEvent.postprocessOk) = false := by
              intro j
              rfl
            rw [hz]
            simp only [beq_iff_eq, reduceCtorEq, if_false]
            omega

theorem panda_loop_produces (n : Nat) (frames : List (Bool × List Bool)) :
    ∀ (i : Nat) (p : List Nat) (e : List PEvent),
      panda_loop n i frames = some (p, e) →
      p = List.range' i (n - i) := by
  induction frames with
  | nil =>
    intro i p e h
    simp only [panda_loop] at h
    by_cases hni : n ≤ i
    · rw [if_pos hni] at h
      cases h
      have h0 : n - i = 0 := by omega
      simp [h0]
    · rw [if_neg hni] at h
      cases h
  | cons f rest ih =>
    intro i p e h
    simp only [panda_loop] at h
    by_cases hni : n ≤ i
    · rw [if_pos hni] at h
      cases h
      have h0 : n - i = 0 := by omega
      simp [h0]
    · rw [if_neg hni] at h
      generalize hok : frame_ok f.1 f.2 = ok at h
      cases hrec : panda_loop n (if ok then i + 1 else i) rest with
      | none => rw [hrec] at h; cases h
      | some pe =>
        rw [hrec] at h
        obtain ⟨p1, e1⟩ := pe
        have hp1 := ih (if ok then i + 1 else i) p1 e1 hrec
        cases h
        cases ok with
        | false =>
          simp only [Bool.false_eq_true, if_false] at hp1 ⊢
          exact hp1
        | true =>
          simp only [if_true] at hp1 ⊢
          have hn : n - i = (n - (i + 1)) + 1 := by omega
          rw [hp1, hn, List.range'_succ]
          simp

/-- C4: In both per-image generation loops — the RenderedObjects CLI driver
and PandaTable — the image-index counter advances only on a frame whose
postprocessing succeeded (and, for PandaTable, whose visibility test passed
and whose every camera postprocessed successfully), so whenever the loop
terminates it has produced exactly the `image_count` image indices 0 to
image_count minus 1, regardless of how many transient postprocessing errors
occurred; in the CLI driver the trace then holds exactly `image_count`
successful postprocessing events. -/
theorem generation_loop_invariant :
    (∀ (n : Nat) (outcomes : List Bool) (p : List Nat) (e : List AEvent),
      loop_A n 0 outcomes = some (p, e) →
      p = List.range n ∧ p.length = n ∧ e.count AEvent.postprocessOk = n) ∧
    (∀ (n : Nat) (frames : List (Bool × List Bool)) (p : List Nat) (e : List PEvent),
      panda_loop n 0 frames = some (p, e) →
      p = List.range n ∧ p.length = n) := by
  constructor
  · intro n outcomes p e h
    obtain ⟨hp, he⟩ := loop_A_produces n outcomes 0 p e h
    have hr : List.range' 0 (n - 0) = List.range n := by
      rw [List.range_eq_range']
      simp
    rw [hr] at hp
    refine ⟨hp, ?_, by simpa using he⟩
    rw [hp, List.length_range]
  · intro n frames p e h
    have hp := panda_loop_produces n frames 0 p e h
    have hr : List.range' 0 (n - 0) = List.range n := by
      rw [List.range_eq_range']
      simp
    rw [hr] at hp
    exact ⟨hp, by rw [hp, List.length_range]⟩

/-- Witness for `generation_loop_invariant`: the CLI loop asked for 2 images
with outcomes success, failure, success produces exactly indices 0 and 1 with
two successful postprocessing events; the PandaTable loop asked for 1 image
with a first frame that is visible and postprocesses on both cameras produces
exactly index 0. -/
theorem generation_loop_invariant_witness :
    (([0, 1] : List Nat) = List.range 2 ∧ ([0, 1] : List Nat).length = 2 ∧
      ([AEvent.setFilename 0, AEvent.setEnvTexture, AEvent.randomize, AEvent.render,
        AEvent.postprocessOk,
        AEvent.setFilename 1, AEvent.setEnvTexture, AEvent.randomize, AEvent.render,
        AEvent.postprocessErr,
        AEvent.setFilename 1, AEvent.setEnvTexture, AEvent.randomize, AEvent.render,
        AEvent.postprocessOk] : List AEvent).count AEvent.postprocessOk = 2) ∧
    (([0] : List Nat) = List.range 1 ∧ ([0] : List Nat).length = 1) :=
  ⟨generation_loop_invariant.1 2 [true, false, true] [0, 1] _ rfl,
   generation_loop_invariant.2 1 [(true, [true, true])] [0]
     [PEvent.randEnvTexture, PEvent.randTransforms, PEvent.forwardSim,
      PEvent.activateCam, PEvent.setupPathspec, PEvent.render, PEvent.postprocessOk,
      PEvent.activateCam, PEvent.setupPathspec, PEvent.render, PEvent.postprocessOk] rfl⟩

/-- C6: For every configuration whose image count is at most 0, dataset
generation returns a failure indicator immediately — `(False, None)` in the
RenderedObjects CLI, `False` in PandaTable — with an empty event trace: no
renderer setup, no rendering, no file output. -/
theorem generate_dataset_nonpositive_count :
    (∀ (cfg : AConfig) (scene_provided : Bool) (outcomes : List Bool),
      cfg.image_count ≤ 0 →
      generate_dataset cfg scene_provided outcomes = some (Except.ok (false, none), [])) ∧
    (∀ (image_count : Int) (frames : List (Bool × List Bool)),
      image_count ≤ 0 →
      panda_generate_dataset image_count frames = some (false, [])) := by
  constructor
  · intro cfg sp outcomes h
    simp [generate_dataset, h]
  · intro ic frames h
    simp [panda_generate_dataset, h]

/-- Witness for `generate_dataset_nonpositive_count`: image count 0 in the
CLI driver and image count -3 in PandaTable. -/
theorem generate_dataset_nonpositive_count_witness :
    generate_dataset ⟨0, "PandaTable"⟩ false [] = some (Except.ok (false, none), []) ∧
    panda_generate_dataset (-3) [(true, [true])] = some (false, []) :=
  ⟨generate_dataset_nonpositive_count.1 ⟨0, "PandaTable"⟩ false [] (by norm_num),
   generate_dataset_nonpositive_count.2 (-3) [(true, [true])] (by norm_num)⟩

/-! ## PandaTable.setup_objects

Embedding of `pandatable.py`, lines 218 to 312.  For each `Type:Count` spec
(in declared order) the enumeration index is the class id; a type without the
`parts.` prefix is duplicated from the proto object of that name already in
the scene, while a prefixed type is stripped of the prefix and either
appended from the configured blender part file when that path exists, or
imported from the configured PLY file; imported objects are renamed to
`<type>.<NNN>` with `j` zero-padded to 3 digits, and blender gives
duplicated proto objects the names `<type>.001`, `<type>.002`, ... in a fresh
scene.  Each new object is linked into the TargetObjects collection unless
its name is already a member.  After the loop, `id_mask` strings are built
with widths `ceil(log(n_types))` and `ceil(log(n_instances[class]))` — the
NATURAL logarithm, `log` being `math.log` with a single argument — modelled
by the exact real logarithm.

Python `obj_spec.split(':')` with unpacking into two names raises for a spec
without exactly one colon, and `int(count)` raises on a non-numeric count;
both failures are collapsed into the `none` result of the embedding (the code
would abort `setup_objects` with an exception).
-/

/-- Which code path created a target object instance. -/
inductive ObjSource where
  | duplicatedProto
  | appendedBlendFile
  | importedPly
deriving DecidableEq, Repr

/-- One entry of `self.objs`: the Target Object Record of lines 298 to 304,
plus the name of the created blender object (used for collection linking)
and the code path that created it. -/
structure TObjRec where
  id_mask : String
  object_class_name : String
  object_class_id : Nat
  object_id : Nat
  source : ObjSource
  bpy_name : String
deriving DecidableEq, Repr

/-- Split a character list at every colon, modelling Python `str.split(':')`. -/
def split_colon : List Char → List (List Char)
  | [] => [[]]
  | c :: rest =>
    if c = ':' then [] :: split_colon rest
    else
      match split_colon rest with
      | [] => [[c]]
      | h :: t => (c :: h) :: t

/-- Read a non-empty all-digit character list as a natural number, modelling
Python `int()` on the plain decimal count strings of object specs. -/
def char_digits_to_nat? (cs : List Char) : Option Nat :=
  if cs.isEmpty then none
  else if cs.all (fun c => c.isDigit) then
    some (cs.foldl (fun a c => 10 * a + (c.toNat - 48)) 0)
  else none

/-- Whether `pre` is a prefix of `s`, modelling Python `str.startswith`. -/
def str_starts_with (s pre : String) : Bool :=
  pre.data.isPrefixOf s.data

/-- Parse one `Type:Count` spec (line 248): `obj_type, obj_count = obj_spec.split(':')`
followed by `int(obj_count)`; a spec without exactly one colon fails the
two-name unpacking. -/
def parse_obj_spec (s : String) : Option (String × Nat) :=
  match split_colon s.data with
  | [t, c] =>
    match char_digits_to_nat? c with
    | some n => some (String.mk t, n)
    | none => none
  | _ => none

/-- The instances created for one spec entry (lines 252 to 304):
`obj_type_id` is the enumeration index, `t` the declared type string, `n` the
declared count; `blend_exists` tells whether the configured part file path of
a stripped type exists on disk. -/
def make_records (blend_exists : String → Bool) (obj_type_id : Nat) (t : String) (n : Nat) :
    List TObjRec :=
  let is_proto := ¬ str_starts_with t "parts."
  let typ := if is_proto then t else String.mk (t.data.drop 6)
  (List.range n).map fun j =>
    if is_proto then
      { id_mask := ""
        object_class_name := typ
        object_class_id := obj_type_id
        object_id := j
        source := ObjSource.duplicatedProto
        bpy_name := typ ++ "." ++ padNum 3 (j + 1) }
    else if blend_exists typ then
      { id_mask := ""
        object_class_name := typ
        object_class_id := obj_type_id
        object_id := j
        source := ObjSource.appendedBlendFile
        bpy_name := typ ++ "." ++ padNum 3 j }
    else
      { id_mask := ""
        object_class_name := typ
        object_class_id := obj_type_id
        object_id := j
        source := ObjSource.importedPly
        bpy_name := typ ++ "." ++ padNum 3 j }

/-- The object-creation loop of `setup_objects` (lines 245 to 304): records
for every spec in order, class ids increasing with the enumeration index. -/
def setup_objects_records (target_objects : List String) (blend_exists : String → Bool) :
    Option (List TObjRec) :=
  match target_objects.mapM parse_obj_spec with
  | none => none
  | some parsed =>
      some ((parsed.enum.map fun p => make_records blend_exists p.1 p.2.1 p.2.2).flatten)

/-- Embedding of the collection-linking step (lines 292 to 295): link the
object into the TargetObjects collection, skipped when the name is already a
member.  Returns the updated membership list and whether a link happened. -/
def link_to_collection (collection : List String) (name : String) : List String × Bool :=
  if collection.contains name then (collection, false)
  else (collection ++ [name], true)

/-- Linking a list of created objects in order, returning the final
collection and the per-object link flags. -/
def link_all : List String → List String → List String × List Bool
  | collection, [] => (collection, [])
  | collection, name :: rest =>
    let step := link_to_collection collection name
    let next := link_all step.1 rest
    (next.1, step.2 :: next.2)

/-- Embedding of `ceil(log(n))` with `math.log` in its single-argument,
natural-logarithm form (pandatable lines 308 and 310).  Python raises a math
domain error at 0; the claims only exercise positive counts. -/
noncomputable def ceil_ln (n : Nat) : Nat :=
  ⌈Real.log n⌉₊

/-- Embedding of the id-mask loop (lines 306 to 312): for each record, the
mask is `_<classid>_<instanceid>` with the class id padded to
`ceil(log(n_types))` digits and the instance id padded to
`ceil(log(n_instances[class]))` digits, where `n_instances` lists the
declared per-type counts. -/
noncomputable def build_id_masks (n_types : Nat) (n_instances : List Nat)
    (objs : List TObjRec) : List TObjRec :=
  let m_w := ceil_ln n_types
  objs.map fun o =>
    let o_w := ceil_ln (n_instances.getD o.object_class_id 0)
    { o with id_mask := "_" ++ padNum m_w o.object_class_id ++ "_" ++ padNum o_w o.object_id }

/-- Embedding of the whole of `PandaTable.setup_objects`: create the records,
then fill in the id masks, with `n_types` the number of specs and
`n_instances` their declared counts. -/
noncomputable def setup_objects (target_objects : List String) (blend_exists : String → Bool) :
    Option (List TObjRec) :=
  match target_objects.mapM parse_obj_spec with
  | none => none
  | some parsed =>
      some (build_id_masks parsed.length (parsed.map fun p => p.2)
        ((parsed.enum.map fun p => make_records blend_exists p.1 p.2.1 p.2.2).flatten))

theorem exp_two_eq : Real.exp 2 = Real.exp 1 * Real.exp 1 := by
  rw [← Real.exp_add]
  norm_num

theorem exp_three_eq : Real.exp 3 = Real.exp 1 * Real.exp 1 * Real.exp 1 := by
  rw [← Real.exp_add, ← Real.exp_add]
  norm_num

theorem ceil_ln_two : ceil_ln 2 = 1 := by
  rw [ceil_ln, Nat.ceil_eq_iff (by norm_num)]
  have hgt := Real.exp_one_gt_d9
  constructor
  · push_cast
    rw [Real.lt_log_iff_exp_lt (by norm_num : (0:Real) < 2)]
    simp
  · push_cast
    rw [Real.log_le_iff_le_exp (by norm_num : (0:Real) < 2)]
    linarith

theorem ceil_ln_three : ceil_ln 3 = 2 := by
  rw [ceil_ln, Nat.ceil_eq_iff (by norm_num)]
  have hlt := Real.exp_one_lt_d9
  have hgt := Real.exp_one_gt_d9
  constructor
  · push_cast
    rw [Real.lt_log_iff_exp_lt (by norm_num : (0:Real) < 3)]
    linarith
  · push_cast
    rw [Real.log_le_iff_le_exp (by norm_num : (0:Real) < 3), exp_two_eq]
    nlinarith

theorem ceil_ln_four : ceil_ln 4 = 2 := by
  rw [ceil_ln, Nat.ceil_eq_iff (by norm_num)]
  have hlt := Real.exp_one_lt_d9
  have hgt := Real.exp_one_gt_d9
  constructor
  · push_cast
    rw [Real.lt_log_iff_exp_lt (by norm_num : (0:Real) < 4)]
    linarith
  · push_cast
    rw [Real.log_le_iff_le_exp (by norm_num : (0:Real) < 4), exp_two_eq]
    nlinarith

theorem ceil_ln_fifteen : ceil_ln 15 = 3 := by
  rw [ceil_ln, Nat.ceil_eq_iff (by norm_num)]
  have hlt := Real.exp_one_lt_d9
  have hgt := Real.exp_one_gt_d9
  constructor
  · push_cast
    rw [Real.lt_log_iff_exp_lt (by norm_num : (0:Real) < 15), exp_two_eq]
    nlinarith
  · push_cast
    rw [Real.log_le_iff_le_exp (by norm_num : (0:Real) < 15), exp_three_eq]
    nlinarith

/-- The id masks produced by `setup_objects` for 3 proto types with counts
2, 15 and 4: the class field is 2 characters wide (the ceiling of the
natural logarithm of 3) and the instance fields are 1, 3 and 2 characters
wide (the ceilings of the natural logarithms of 2, 15 and 4). -/
theorem setup_objects_masks_concrete (fe : String → Bool) :
    (setup_objects ["A:2", "B:15", "C:4"] fe).map (fun l => l.map TObjRec.id_mask) =
      some ["_00_0", "_00_1",
        "_01_000", "_01_001", "_01_002", "_01_003", "_01_004", "_01_005", "_01_006",
        "_01_007", "_01_008", "_01_009", "_01_010", "_01_011", "_01_012", "_01_013",
        "_01_014",
        "_02_00", "_02_01", "_02_02", "_02_03"] := by
  have hrec : setup_objects ["A:2", "B:15", "C:4"] fe =
      some (build_id_masks 3 [2, 15, 4]
        [
        { id_mask := "", object_class_name := "A", object_class_id := 0,
          object_id := 0, source := ObjSource.duplicatedProto, bpy_name := "A.001" },
        { id_mask := "", object_class_name := "A", object_class_id := 0,
          object_id := 1, source := ObjSource.duplicatedProto, bpy_name := "A.002" },
        { id_mask := "", object_class_name := "B", object_class_id := 1,
          object_id := 0, source := ObjSource.duplicatedProto, bpy_name := "B.001" },
        { id_mask := "", object_class_name := "B", object_class_id := 1,
          object_id := 1, source := ObjSource.duplicatedProto, bpy_name := "B.002" },
        { id_mask := "", object_class_name := "B", object_class_id := 1,
          object_id := 2, source := ObjSource.duplicatedProto, bpy_name := "B.003" },
        { id_mask := "", object_class_name := "B", object_class_id := 1,
          object_id := 3, source := ObjSource.duplicatedProto, bpy_name := "B.004" },
        { id_mask := "", object_class_name := "B", object_class_id := 1,
          object_id := 4, source := ObjSource.duplicatedProto, bpy_name := "B.005" },
        { id_mask := "", object_class_name := "B", object_class_id := 1,
          object_id := 5, source := ObjSource.duplicatedProto, bpy_name := "B.006" },
        { id_mask := "", object_class_name := "B", object_class_id := 1,
          object_id := 6, source := ObjSource.duplicatedProto, bpy_name := "B.007" },
        { id_mask := "", object_class_name := "B", object_class_id := 1,
          object_id := 7, source := ObjSource.duplicatedProto, bpy_name := "B.008" },
        { id_mask := "", object_class_name := "B", object_class_id := 1,
          object_id := 8, source := ObjSource.duplicatedProto, bpy_name := "B.009" },
        { id_mask := "", object_class_name := "B", object_class_id := 1,
          object_id := 9, source := ObjSource.duplicatedProto, bpy_name := "B.010" },
        { id_mask := "", object_class_name := "B", object_class_id := 1,
          object_id := 10, source := ObjSource.duplicatedProto, bpy_name := "B.011" },
        { id_mask := "", object_class_name := "B", object_class_id := 1,
          object_id := 11, source := ObjSource.duplicatedProto, bpy_name := "B.012" },
        { id_mask := "", object_class_name := "B", object_class_id := 1,
          object_id := 12, source := ObjSource.duplicatedProto, bpy_name := "B.013" },
        { id_mask := "", object_class_name := "B", object_class_id := 1,
          object_id := 13, source := ObjSource.duplicatedProto, bpy_name := "B.014" },
        { id_mask := "", object_class_name := "B", object_class_id := 1,
          object_id := 14, source := ObjSource.duplicatedProto, bpy_name := "B.015" },
        { id_mask := "", object_class_name := "C", object_class_id := 2,
          object_id := 0, source := ObjSource.duplicatedProto, bpy_name := "C.001" },
        { id_mask := "", object_class_name := "C", object_class_id := 2,
          object_id := 1, source := ObjSource.duplicatedProto, bpy_name := "C.002" },
        { id_mask := "", object_class_name := "C", object_class_id := 2,
          object_id := 2, source := ObjSource.duplicatedProto, bpy_name := "C.003" },
        { id_mask := "", object_class_name := "C", object_class_id := 2,
          object_id := 3, source := ObjSource.duplicatedProto, bpy_name := "C.004" }]) := rfl
  have g0 : ceil_ln (List.getD ([2, 15, 4] : List Nat) 0 0) = 1 := by
    rw [show List.getD ([2, 15, 4] : List Nat) 0 0 = 2 from rfl]
    exact ceil_ln_two
  have g1 : ceil_ln (List.getD ([2, 15, 4] : List Nat) 1 0) = 3 := by
    rw [show List.getD ([2, 15, 4] : List Nat) 1 0 = 15 from rfl]
    exact ceil_ln_fifteen
  have g2 : ceil_ln (List.getD ([2, 15, 4] : List Nat) 2 0) = 2 := by
    rw [show List.getD ([2, 15, 4] : List Nat) 2 0 = 4 from rfl]
    exact ceil_ln_four
  rw [hrec]
  rw [Option.map_some']
  congr 1
  simp only [build_id_masks, List.map_cons, List.map_nil, ceil_ln_three, g0, g1, g2]
  decide

/-- C2 counterexample: for 3 target object types with counts 2, 15 and 4,
the id mask of the first record is the string with a 2-character class field
and a 1-character instance field, not the mask with a 1-character class field
and a 2-character instance field that the claim requires (1 digit for up to
3 classes, 2 digits for up to 15 instances). -/
theorem c2_counterexample :
    ((setup_objects ["A:2", "B:15", "C:4"] (fun _ => true)).map
        (fun l => l.map TObjRec.id_mask)).map (fun l => l.getD 0 "") = some "_00_0" ∧
    ("_00_0" : String) ≠ "_0_00" := by
  constructor
  · rw [setup_objects_masks_concrete]
    rfl
  · decide

/-- C2 amended: after `setup_objects`, each record's id mask uses a
class-index field whose zero-pad width is the ceiling of the NATURAL
logarithm of the number of distinct object types, and an instance-index
field whose zero-pad width is the ceiling of the natural logarithm of the
declared instance count of that record's own type (not of the largest type);
concretely, for 3 types with counts 2, 15 and 4 the class-index width is 2
and the instance-index widths are 1, 3 and 2 respectively. -/
theorem c2_amended :
    (∀ fe : String → Bool,
      (setup_objects ["A:2", "B:15", "C:4"] fe).map (fun l => l.map TObjRec.id_mask) =
        some ["_00_0", "_00_1",
          "_01_000", "_01_001", "_01_002", "_01_003", "_01_004", "_01_005", "_01_006",
          "_01_007", "_01_008", "_01_009", "_01_010", "_01_011", "_01_012", "_01_013",
          "_01_014",
          "_02_00", "_02_01", "_02_02", "_02_03"]) ∧
    ceil_ln 3 = 2 ∧ ceil_ln 2 = 1 ∧ ceil_ln 15 = 3 ∧ ceil_ln 4 = 2 :=
  ⟨setup_objects_masks_concrete, ceil_ln_three, ceil_ln_two, ceil_ln_fifteen, ceil_ln_four⟩

/-- The records created for `target_objects = ["partX:2", "proto_y:1"]`:
since neither type string carries the `parts.` prefix, every instance is
duplicated from an in-scene proto object, whatever the part files on disk. -/
theorem setup_objects_records_concrete (fe : String → Bool) :
    setup_objects_records ["partX:2", "proto_y:1"] fe =
      some [
        { id_mask := "", object_class_name := "partX", object_class_id := 0,
          object_id := 0, source := ObjSource.duplicatedProto, bpy_name := "partX.001" },
        { id_mask := "", object_class_name := "partX", object_class_id := 0,
          object_id := 1, source := ObjSource.duplicatedProto, bpy_name := "partX.002" },
        { id_mask := "", object_class_name := "proto_y", object_class_id := 1,
          object_id := 0, source := ObjSource.duplicatedProto, bpy_name := "proto_y.001" }] :=
  rfl

/-- The records created for `target_objects = ["parts.partX:2", "proto_y:1"]`
when the configured part file for partX exists on disk: the prefixed type is
stripped and appended from the blender part file, the unprefixed one is
duplicated from the in-scene proto object. -/
theorem setup_objects_records_parts (fe : String → Bool) (h : fe "partX" = true) :
    setup_objects_records ["parts.partX:2", "proto_y:1"] fe =
      some [
        { id_mask := "", object_class_name := "partX", object_class_id := 0,
          object_id := 0, source := ObjSource.appendedBlendFile, bpy_name := "partX.000" },
        { id_mask := "", object_class_name := "partX", object_class_id := 0,
          object_id := 1, source := ObjSource.appendedBlendFile, bpy_name := "partX.001" },
        { id_mask := "", object_class_name := "proto_y", object_class_id := 1,
          object_id := 0, source := ObjSource.duplicatedProto, bpy_name := "proto_y.001" }] := by
  have h1 : setup_objects_records ["parts.partX:2", "proto_y:1"] fe =
      some ((([("parts.partX", 2), ("proto_y", 1)] : List (String × Nat)).enum.map
        fun p => make_records fe p.1 p.2.1 p.2.2).flatten) := rfl
  have hswA : str_starts_with "parts.partX" "parts." = true := rfl
  have hswB : str_starts_with "proto_y" "parts." = false := rfl
  have hd : String.mk (List.drop 6 "parts.partX".data) = "partX" := rfl
  rw [h1]
  simp only [make_records, List.enum, List.enumFrom, List.map_cons, List.map_nil,
    List.flatten, List.range, List.range.loop, List.append_nil, List.cons_append,
    List.nil_append, hswA, hswB, hd, h, not_true, Bool.false_eq_true, Bool.true_eq_false,
    not_false_eq_true, not_false_iff, if_true, if_false]
  decide

/-- C7 counterexample: with `target_objects = ["partX:2", "proto_y:1"]` every
created record is sourced by duplicating an in-scene proto object — the type
string `partX` has no `parts.` prefix, so no external part file is involved,
contradicting the claim that the two class-0 instances come from an external
part file. -/
theorem c7_counterexample :
    (setup_objects_records ["partX:2", "proto_y:1"] (fun _ => true)).map
        (fun l => l.map TObjRec.source) =
      some [ObjSource.duplicatedProto, ObjSource.duplicatedProto, ObjSource.duplicatedProto] ∧
    ObjSource.duplicatedProto ≠ ObjSource.appendedBlendFile := by
  constructor
  · rw [setup_objects_records_concrete]
    rfl
  · decide

/-- C7 amended: for `target_objects = ["partX:2", "proto_y:1"]`,
`setup_objects` creates exactly 3 Target Object Records — 2 with class id 0
(instance ids 0 and 1) and 1 with class id 1 (instance id 0) — but all three
are duplicated from in-scene proto objects, because external part files are
used only for types carrying the `parts.` prefix (for
`["parts.partX:2", "proto_y:1"]` with the part file present, the two class-0
instances are appended from the external part file); every created instance
is linked into the TargetObjects collection exactly once, with the link step
skipped whenever the object is already a member. -/
theorem c7_amended :
    (∀ fe : String → Bool,
      setup_objects_records ["partX:2", "proto_y:1"] fe =
        some [
          { id_mask := "", object_class_name := "partX", object_class_id := 0,
            object_id := 0, source := ObjSource.duplicatedProto, bpy_name := "partX.001" },
          { id_mask := "", object_class_name := "partX", object_class_id := 0,
            object_id := 1, source := ObjSource.duplicatedProto, bpy_name := "partX.002" },
          { id_mask := "", object_class_name := "proto_y", object_class_id := 1,
            object_id := 0, source := ObjSource.duplicatedProto, bpy_name := "proto_y.001" }]) ∧
    (∀ fe : String → Bool, fe "partX" = true →
      setup_objects_records ["parts.partX:2", "proto_y:1"] fe =
        some [
          { id_mask := "", object_class_name := "partX", object_class_id := 0,
            object_id := 0, source := ObjSource.appendedBlendFile, bpy_name := "partX.000" },
          { id_mask := "", object_class_name := "partX", object_class_id := 0,
            object_id := 1, source := ObjSource.appendedBlendFile, bpy_name := "partX.001" },
          { id_mask := "", object_class_name := "proto_y", object_class_id := 1,
            object_id := 0, source := ObjSource.duplicatedProto, bpy_name := "proto_y.001" }]) ∧
    link_all [] ["partX.001", "partX.002", "proto_y.001"] =
      (["partX.001", "partX.002", "proto_y.001"], [true, true, true]) ∧
    (∀ (collection : List String) (name : String),
      collection.contains name = true →
      link_to_collection collection name = (collection, false)) := by
  refine ⟨setup_objects_records_concrete, setup_objects_records_parts, ?_, ?_⟩
  · rfl
  · intro collection name h
    simp only [link_to_collection, h, if_true]

/-- Witness for `c7_amended`: the part-file clause applied to the part-file
oracle that affirms every path, and the skip clause applied to a collection
already containing the name. -/
theorem c7_amended_witness :
    setup_objects_records ["parts.partX:2", "proto_y:1"] (fun _ => true) =
      some [
        { id_mask := "", object_class_name := "partX", object_class_id := 0,
          object_id := 0, source := ObjSource.appendedBlendFile, bpy_name := "partX.000" },
        { id_mask := "", object_class_name := "partX", object_class_id := 0,
          object_id := 1, source := ObjSource.appendedBlendFile, bpy_name := "partX.001" },
        { id_mask := "", object_class_name := "proto_y", object_class_id := 1,
          object_id := 0, source := ObjSource.duplicatedProto, bpy_name := "proto_y.001" }] ∧
    link_to_collection ["partX.001"] "partX.001" = (["partX.001"], false) :=
  ⟨c7_amended.2.1 (fun _ => true) rfl,
   c7_amended.2.2.2 ["partX.001"] "partX.001" (by decide)⟩

/-! ## setup_material_metal_tool_cap

Embedding of `nodes/material_metal_tool_cap.py`, lines 42 to 227, in the case
where an explicit reference empty is supplied (so the `empty is None` block
creating and parenting a new empty, lines 88 to 114, is skipped).  The
material node tree is modelled as the list of its nodes (name and type) and
the list of its links (source node, source socket, destination node,
destination socket).  `nodes.new` names the created node after the type's
default label, suffixed `.001`, `.002`, ... on collisions, as the host
application does.

Every socket subscript the source performs — `n.outputs[key]` and
`n.inputs[key]`, by socket name or by position — is modelled: the subscript
resolves against the socket-name list of the node's type and raises a
KeyError (embedded as `Except.error`) when the key is absent, exactly as the
host API does on a node that merely carries the looked-up NAME but has a
different type.  Numeric values assigned to `default_value`, color-ramp stop
positions and math-node operations do not alter the graph and are not
recorded, but the subscripts performed to reach them are.  Warnings are
returned as the list of printed messages.
-/

/-- The node types created or looked up by the material builder. -/
inductive NType where
  | outputMaterial
  | bsdfPrincipled
  | texCoord
  | vecMath
  | mathNode
  | mappingNode
  | texNoise
  | valToRGB
  | mixRGB
  | bumpNode
deriving DecidableEq, Repr

/-- The default node label of each type, used by the host application to name
newly created nodes. -/
def NType.baseName : NType → String
  | NType.outputMaterial => "Material Output"
  | NType.bsdfPrincipled => "Principled BSDF"
  | NType.texCoord => "Texture Coordinate"
  | NType.vecMath => "Vector Math"
  | NType.mathNode => "Math"
  | NType.mappingNode => "Mapping"
  | NType.texNoise => "Noise Texture"
  | NType.valToRGB => "ColorRamp"
  | NType.mixRGB => "Mix"
  | NType.bumpNode => "Bump"

/-- The input socket names of each node type, in the host application's
order (the vector-math and math nodes have two same-named inputs, addressed
by position in the source). -/
def NType.inputNames : NType → List String
  | NType.outputMaterial => ["Surface", "Volume", "Displacement"]
  | NType.bsdfPrincipled =>
    ["Base Color", "Subsurface", "Subsurface Radius", "Subsurface Color", "Metallic",
     "Specular", "Specular Tint", "Roughness", "Anisotropic", "Anisotropic Rotation",
     "Sheen", "Sheen Tint", "Clearcoat", "Clearcoat Roughness", "IOR", "Transmission",
     "Transmission Roughness", "Emission", "Alpha", "Normal", "Clearcoat Normal", "Tangent"]
  | NType.texCoord => []
  | NType.vecMath => ["Vector", "Vector"]
  | NType.mathNode => ["Value", "Value"]
  | NType.mappingNode => ["Vector", "Location", "Rotation", "Scale"]
  | NType.texNoise => ["Vector", "W", "Scale", "Detail", "Distortion"]
  | NType.valToRGB => ["Fac"]
  | NType.mixRGB => ["Fac", "Color1", "Color2"]
  | NType.bumpNode => ["Strength", "Distance", "Height", "Normal"]

/-- The output socket names of each node type. -/
def NType.outputNames : NType → List String
  | NType.outputMaterial => []
  | NType.bsdfPrincipled => ["BSDF"]
  | NType.texCoord => ["Generated", "Normal", "UV", "Object", "Camera", "Window", "Reflection"]
  | NType.vecMath => ["Vector", "Value"]
  | NType.mathNode => ["Value"]
  | NType.mappingNode => ["Vector"]
  | NType.texNoise => ["Fac", "Color"]
  | NType.valToRGB => ["Color", "Alpha"]
  | NType.mixRGB => ["Color"]
  | NType.bumpNode => ["Normal"]

/-- A shader node: its (unique) name and its type. -/
structure SNode where
  name : String
  ntype : NType
deriving DecidableEq, Repr

/-- A link between two node sockets. -/
structure SLink where
  src : String
  srcSocket : String
  dst : String
  dstSocket : String
deriving DecidableEq, Repr

/-- A material node tree: nodes and links. -/
structure NodeTree where
  nodes : List SNode
  links : List SLink
deriving DecidableEq, Repr

/-- The names present in a tree. -/
def node_names (t : NodeTree) : List String :=
  t.nodes.map SNode.name

/-- The name the host application gives a new node: the base label if free,
else the first free `.NNN` suffix (the fallback is unreachable since among
`taken.length + 1` candidate suffixes one must be free). -/
def freshName (taken : List String) (base : String) : String :=
  if taken.contains base then
    match (List.range (taken.length + 1)).find?
        (fun k => !(taken.contains (base ++ "." ++ padNum 3 (k + 1)))) with
    | some k => base ++ "." ++ padNum 3 (k + 1)
    | none => base ++ ".overflow"
  else base

/-- Embedding of `nodes.new(...)`: append a node of the given type under a
fresh name; returns the new tree and the node. -/
def addNode (t : NodeTree) (ty : NType) : NodeTree × SNode :=
  let n : SNode := { name := freshName (node_names t) ty.baseName, ntype := ty }
  ({ nodes := t.nodes ++ [n], links := t.links }, n)

/-- Append a link whose sockets are already resolved. -/
def addLink (t : NodeTree) (src srcSocket dst dstSocket : String) : NodeTree :=
  { nodes := t.nodes,
    links := t.links ++ [{ src := src, srcSocket := srcSocket, dst := dst, dstSocket := dstSocket }] }

/-- A socket subscript: by socket name, or by position. -/
inductive SockKey where
  | name (s : String)
  | idx (i : Nat)
deriving DecidableEq, Repr

/-- Printable form of a subscript key, for the KeyError message. -/
def SockKey.render : SockKey → String
  | SockKey.name s => s
  | SockKey.idx i => toString i

/-- The error raised by a failed socket subscript. -/
def key_err_msg (k : String) : String :=
  "KeyError: " ++ squote k

/-- Resolve a subscript against a socket-name list: a name resolves when
present, a position when in range. -/
def lookupSock (socks : List String) : SockKey → Option String
  | SockKey.name s => if socks.contains s then some s else none
  | SockKey.idx i => socks.get? i

/-- Embedding of `n.inputs[k]`: the resolved socket name, or a raised
KeyError when the node's type has no such input. -/
def sockIn (n : SNode) (k : SockKey) : Except String String :=
  match lookupSock n.ntype.inputNames k with
  | some s => Except.ok s
  | none => Except.error (key_err_msg k.render)

/-- Embedding of `n.outputs[k]`. -/
def sockOut (n : SNode) (k : SockKey) : Except String String :=
  match lookupSock n.ntype.outputNames k with
  | some s => Except.ok s
  | none => Except.error (key_err_msg k.render)

/-- Embedding of `tree.links.new(src.outputs[sk], dst.inputs[dk])`: both
subscripts are performed (and may raise) before the link is appended. -/
def link_new (t : NodeTree) (src : SNode) (sk : SockKey) (dst : SNode) (dk : SockKey) :
    Except String NodeTree := do
  let ss ← sockOut src sk
  let ds ← sockIn dst dk
  Except.ok (addLink t src.name ss dst.name ds)

/-- Embedding of `n.inputs[k].default_value = v`: the subscript is performed
(and may raise); the numeric assignment does not change the graph. -/
def set_input (n : SNode) (k : SockKey) : Except String Unit := do
  let _ ← sockIn n k
  Except.ok ()

/-- The result of the material builder: the final tree, the warnings printed,
and the names of the nodes used as material output and principled BSDF. -/
structure MatResult where
  tree : NodeTree
  warnings : List String
  n_output : String
  n_bsdf : String
deriving DecidableEq, Repr

/-- The head phase result, carrying the chosen nodes themselves. -/
structure HeadResult where
  tree : NodeTree
  warnings : List String
  n_output : SNode
  n_bsdf : SNode
deriving DecidableEq, Repr

/-- Warning printed when the node count differs from 2 (line 55). -/
def count_warn_msg : String := "More shader nodes in material than expected!"

/-- Warning printed when the material output node is missing (line 59). -/
def missing_output_msg : String :=
  "Node " ++ squote "Material Output" ++ " not found in material node-tree"

/-- Warning printed when the principled BSDF node is missing (line 66). -/
def missing_bsdf_msg : String :=
  "Node " ++ squote "Principled BSDF" ++ " not found in material node-tree"

/-- Lines 58 to 62: look up the node named Material Output (whatever its
type), creating one when no node carries that name.  Returns the tree, the
chosen node, and the warnings printed. -/
def pick_output (tree : NodeTree) : NodeTree × SNode × List String :=
  match tree.nodes.find? (fun n => n.name == "Material Output") with
  | some n => (tree, n, [])
  | none =>
    let s := addNode tree NType.outputMaterial
    (s.1, s.2, [missing_output_msg])

/-- Lines 65 to 69: look up the node named Principled BSDF (whatever its
type), creating one when no node carries that name. -/
def pick_bsdf (tree : NodeTree) : NodeTree × SNode × List String :=
  match tree.nodes.find? (fun n => n.name == "Principled BSDF") with
  | some n => (tree, n, [])
  | none =>
    let s := addNode tree NType.bsdfPrincipled
    (s.1, s.2, [missing_bsdf_msg])

/-- Lines 53 to 83 of `setup_material_metal_tool_cap`: warn when the node
count differs from 2, substitute missing output and BSDF nodes, create the
BSDF-to-output link when no link between the two nodes exists (line 78,
subscripting `outputs[BSDF]` and `inputs[Surface]`), then set the three BSDF
parameters (lines 81 to 83, subscripting `inputs[Subsurface]`,
`inputs[Subsurface Color]` and `inputs[Metallic]`).  Each subscript raises a
KeyError when the name-matched node has a type without that socket. -/
def setup_head (tree : NodeTree) : Except String HeadResult := do
  let w1 : List String := if tree.nodes.length ≠ 2 then [count_warn_msg] else []
  let o := pick_output tree
  let b := pick_bsdf o.1
  let link_exists := b.1.links.any fun l => (l.src == b.2.1.name) && (l.dst == o.2.1.name)
  let t3 ←
    if link_exists then Except.ok b.1
    else link_new b.1 b.2.1 (SockKey.name "BSDF") o.2.1 (SockKey.name "Surface")
  let _ ← set_input b.2.1 (SockKey.name "Subsurface")
  let _ ← set_input b.2.1 (SockKey.name "Subsurface Color")
  let _ ← set_input b.2.1 (SockKey.name "Metallic")
  Except.ok (HeadResult.mk t3 (w1 ++ o.2.2 ++ b.2.2) o.2.1 b.2.1)

/-- The value `setup_head` computes when none of its subscripts raises: the
same picks, link check and link creation, without the socket bookkeeping. -/
def head_plain (tree : NodeTree) : HeadResult :=
  let w1 : List String := if tree.nodes.length ≠ 2 then [count_warn_msg] else []
  let o := pick_output tree
  let b := pick_bsdf o.1
  let link_exists := b.1.links.any fun l => (l.src == b.2.1.name) && (l.dst == o.2.1.name)
  let t3 := if link_exists then b.1 else addLink b.1 b.2.1.name "BSDF" o.2.1.name "Surface"
  { tree := t3, warnings := w1 ++ o.2.2 ++ b.2.2, n_output := o.2.1, n_bsdf := b.2.1 }

/-- Lines 86 to 227: the procedural bump, roughness and color network.  Every
`links.new` resolves its two sockets and every `default_value` assignment
subscripts its input socket; the nodes created here have the right types, so
these subscripts succeed, but the final three links subscript the possibly
pre-existing BSDF node (`inputs[Base Color]`, `inputs[Roughness]`,
`inputs[Normal]`, lines 225 to 227). -/
def setup_network_tree (tr : NodeTree) (n_bsdf : SNode) : Except String NodeTree := do
  let (t4, texcoord) := addNode tr NType.texCoord
  let (t5, ndot) := addNode t4 NType.vecMath
  let t6a ← link_new t5 texcoord (SockKey.name "Object") ndot (SockKey.idx 0)
  let t6 ← link_new t6a texcoord (SockKey.name "Object") ndot (SockKey.idx 1)
  let (t7, npow) := addNode t6 NType.mathNode
  let t8 ← link_new t7 ndot (SockKey.idx 1) npow (SockKey.idx 0)
  let (t9, nmap) := addNode t8 NType.mappingNode
  let t10 ← link_new t9 texcoord (SockKey.name "Object") nmap (SockKey.idx 0)
  let (t11, nz0) := addNode t10 NType.texNoise
  let _ ← set_input nz0 (SockKey.name "Scale")
  let _ ← set_input nz0 (SockKey.name "Detail")
  let _ ← set_input nz0 (SockKey.name "Distortion")
  let t12 ← link_new t11 npow (SockKey.idx 0) nz0 (SockKey.idx 0)
  let (t13, nz1) := addNode t12 NType.texNoise
  let _ ← set_input nz1 (SockKey.name "Scale")
  let _ ← set_input nz1 (SockKey.name "Detail")
  let _ ← set_input nz1 (SockKey.name "Distortion")
  let t14 ← link_new t13 npow (SockKey.idx 0) nz1 (SockKey.idx 0)
  let (t15, nz2) := addNode t14 NType.texNoise
  let _ ← set_input nz2 (SockKey.name "Scale")
  let _ ← set_input nz2 (SockKey.name "Detail")
  let _ ← set_input nz2 (SockKey.name "Distortion")
  let t16 ← link_new t15 nmap (SockKey.name "Vector") nz2 (SockKey.idx 0)
  let (t17, nz3) := addNode t16 NType.texNoise
  let _ ← set_input nz3 (SockKey.name "Scale")
  let _ ← set_input nz3 (SockKey.name "Detail")
  let _ ← set_input nz3 (SockKey.name "Distortion")
  let t18 ← link_new t17 nmap (SockKey.name "Vector") nz3 (SockKey.idx 0)
  let (t19, crcol) := addNode t18 NType.valToRGB
  let t20 ← link_new t19 nz0 (SockKey.name "Fac") crcol (SockKey.name "Fac")
  let (t21, nmix) := addNode t20 NType.mixRGB
  let _ ← set_input nmix (SockKey.name "Fac")
  let _ ← set_input nmix (SockKey.name "Color1")
  let t22 ← link_new t21 crcol (SockKey.name "Color") nmix (SockKey.name "Color2")
  let (t23, nmulr) := addNode t22 NType.mathNode
  let _ ← set_input nmulr (SockKey.idx 1)
  let t24 ← link_new t23 nz3 (SockKey.name "Fac") nmulr (SockKey.idx 0)
  let (t25, noutR) := addNode t24 NType.mathNode
  let _ ← set_input noutR (SockKey.idx 1)
  let t26 ← link_new t25 nmulr (SockKey.idx 0) noutR (SockKey.idx 0)
  let (t27, nadd0) := addNode t26 NType.mathNode
  let t28a ← link_new t27 npow (SockKey.idx 0) nadd0 (SockKey.idx 0)
  let t28 ← link_new t28a nz2 (SockKey.name "Fac") nadd0 (SockKey.idx 1)
  let (t29, nmul0) := addNode t28 NType.mathNode
  let _ ← set_input nmul0 (SockKey.idx 1)
  let t30 ← link_new t29 nadd0 (SockKey.idx 0) nmul0 (SockKey.idx 0)
  let (t31, nmod0) := addNode t30 NType.mathNode
  let _ ← set_input nmod0 (SockKey.idx 1)
  let t32 ← link_new t31 nmul0 (SockKey.idx 0) nmod0 (SockKey.idx 0)
  let (t33, nmul1) := addNode t32 NType.mathNode
  let t34a ← link_new t33 nz1 (SockKey.name "Fac") nmul1 (SockKey.idx 0)
  let t34 ← link_new t34a nmod0 (SockKey.idx 0) nmul1 (SockKey.idx 1)
  let (t35, nminn) := addNode t34 NType.mathNode
  let t36a ← link_new t35 nz1 (SockKey.name "Fac") nminn (SockKey.idx 0)
  let t36 ← link_new t36a nmul1 (SockKey.idx 0) nminn (SockKey.idx 1)
  let (t37, ncrr) := addNode t36 NType.valToRGB
  let t38 ← link_new t37 nminn (SockKey.idx 0) ncrr (SockKey.idx 0)
  let (t39, nbmp) := addNode t38 NType.bumpNode
  let _ ← set_input nbmp (SockKey.name "Strength")
  let _ ← set_input nbmp (SockKey.name "Distance")
  let t40 ← link_new t39 ncrr (SockKey.name "Color") nbmp (SockKey.name "Height")
  let t41a ← link_new t40 nmix (SockKey.name "Color") n_bsdf (SockKey.name "Base Color")
  let t41b ← link_new t41a noutR (SockKey.name "Value") n_bsdf (SockKey.name "Roughness")
  let t41 ← link_new t41b nbmp (SockKey.name "Normal") n_bsdf (SockKey.name "Normal")
  Except.ok t41

/-- The tree `setup_network_tree` builds when the BSDF node really is a
principled BSDF (so no subscript raises), with every socket resolved. -/
def network_chain (tr : NodeTree) (bsdf : String) : NodeTree :=
  let (t4, texcoord) := addNode tr NType.texCoord
  let (t5, ndot) := addNode t4 NType.vecMath
  let t6 := addLink (addLink t5 texcoord.name "Object" ndot.name "Vector")
    texcoord.name "Object" ndot.name "Vector"
  let (t7, npow) := addNode t6 NType.mathNode
  let t8 := addLink t7 ndot.name "Value" npow.name "Value"
  let (t9, nmap) := addNode t8 NType.mappingNode
  let t10 := addLink t9 texcoord.name "Object" nmap.name "Vector"
  let (t11, nz0) := addNode t10 NType.texNoise
  let t12 := addLink t11 npow.name "Value" nz0.name "Vector"
  let (t13, nz1) := addNode t12 NType.texNoise
  let t14 := addLink t13 npow.name "Value" nz1.name "Vector"
  let (t15, nz2) := addNode t14 NType.texNoise
  let t16 := addLink t15 nmap.name "Vector" nz2.name "Vector"
  let (t17, nz3) := addNode t16 NType.texNoise
  let t18 := addLink t17 nmap.name "Vector" nz3.name "Vector"
  let (t19, crcol) := addNode t18 NType.valToRGB
  let t20 := addLink t19 nz0.name "Fac" crcol.name "Fac"
  let (t21, nmix) := addNode t20 NType.mixRGB
  let t22 := addLink t21 crcol.name "Color" nmix.name "Color2"
  let (t23, nmulr) := addNode t22 NType.mathNode
  let t24 := addLink t23 nz3.name "Fac" nmulr.name "Value"
  let (t25, noutR) := addNode t24 NType.mathNode
  let t26 := addLink t25 nmulr.name "Value" noutR.name "Value"
  let (t27, nadd0) := addNode t26 NType.mathNode
  let t28 := addLink (addLink t27 npow.name "Value" nadd0.name "Value")
    nz2.name "Fac" nadd0.name "Value"
  let (t29, nmul0) := addNode t28 NType.mathNode
  let t30 := addLink t29 nadd0.name "Value" nmul0.name "Value"
  let (t31, nmod0) := addNode t30 NType.mathNode
  let t32 := addLink t31 nmul0.name "Value" nmod0.name "Value"
  let (t33, nmul1) := addNode t32 NType.mathNode
  let t34 := addLink (addLink t33 nz1.name "Fac" nmul1.name "Value")
    nmod0.name "Value" nmul1.name "Value"
  let (t35, nminn) := addNode t34 NType.mathNode
  let t36 := addLink (addLink t35 nz1.name "Fac" nminn.name "Value")
    nmul1.name "Value" nminn.name "Value"
  let (t37, ncrr) := addNode t36 NType.valToRGB
  let t38 := addLink t37 nminn.name "Value" ncrr.name "Fac"
  let (t39, nbmp) := addNode t38 NType.bumpNode
  let t40 := addLink t39 ncrr.name "Color" nbmp.name "Height"
  addLink (addLink (addLink t40 nmix.name "Color" bsdf "Base Color")
    noutR.name "Value" bsdf "Roughness") nbmp.name "Normal" bsdf "Normal"

/-- Embedding of `setup_material_metal_tool_cap` with an explicit empty:
the validation and substitution head followed by the procedural network,
either of which may raise a KeyError on a mis-typed name-matched node. -/
def setup_material_metal_tool_cap (tree : NodeTree) : Except String MatResult := do
  let h ← setup_head tree
  let t ← setup_network_tree h.tree h.n_bsdf
  Except.ok (MatResult.mk t h.warnings h.n_output.name h.n_bsdf.name)

/-- Whether every pre-existing node carrying one of the two looked-up names
actually has the corresponding type (the situation the builder implicitly
assumes). -/
def expected_names_well_typed (t : NodeTree) : Bool :=
  t.nodes.all fun n =>
    (!(n.name == "Material Output") || (n.ntype == NType.outputMaterial)) &&
    (!(n.name == "Principled BSDF") || (n.ntype == NType.bsdfPrincipled))

set_option maxHeartbeats 2000000 in
theorem setup_network_tree_bsdf (tr : NodeTree) (nm : String) :
    setup_network_tree tr (SNode.mk nm NType.bsdfPrincipled) =
      Except.ok (network_chain tr nm) := rfl

/-- C9 counterexample: on a 2-node tree whose node named Principled BSDF is
actually a Math node, `setup_material_metal_tool_cap` raises a KeyError —
at the `outputs[BSDF]` subscript of line 78 when the BSDF-to-output link is
absent, and at the `inputs[Subsurface]` subscript of line 81 even when that
link is already present — refuting the claim that the function never raises
on a malformed node tree and always completes. -/
theorem c9_counterexample :
    setup_material_metal_tool_cap
        ⟨[SNode.mk "Material Output" NType.outputMaterial,
          SNode.mk "Principled BSDF" NType.mathNode], []⟩ =
      Except.error (key_err_msg "BSDF") ∧
    setup_material_metal_tool_cap
        ⟨[SNode.mk "Material Output" NType.outputMaterial,
          SNode.mk "Principled BSDF" NType.mathNode],
         [SLink.mk "Principled BSDF" "Value" "Material Output" "Surface"]⟩ =
      Except.error (key_err_msg "Subsurface") :=
  ⟨rfl, rfl⟩

theorem find_name_none_iff (t : NodeTree) (s : String) :
    t.nodes.find? (fun n => n.name == s) = none ↔ s ∉ node_names t := by
  rw [List.find?_eq_none]
  constructor
  · intro h hmem
    simp only [node_names, List.mem_map] at hmem
    obtain ⟨n, hn, hname⟩ := hmem
    have hx := h n hn
    rw [hname] at hx
    simp at hx
  · intro h n hn hpred
    rw [beq_iff_eq] at hpred
    exact h (by
      simp only [node_names, List.mem_map]
      exact ⟨n, hn, hpred⟩)

theorem wt_node_type (t : NodeTree) (h : expected_names_well_typed t = true)
    (n : SNode) (hn : n ∈ t.nodes) :
    (n.name = "Material Output" → n.ntype = NType.outputMaterial) ∧
    (n.name = "Principled BSDF" → n.ntype = NType.bsdfPrincipled) := by
  rw [expected_names_well_typed, List.all_eq_true] at h
  have hx := h n hn
  rw [Bool.and_eq_true] at hx
  constructor
  · intro hname
    have h1 := hx.1
    rw [hname] at h1
    simpa using h1
  · intro hname
    have h2 := hx.2
    rw [hname] at h2
    simpa using h2

theorem pick_output_name (t : NodeTree) : (pick_output t).2.1.name = "Material Output" := by
  cases hf : t.nodes.find? (fun n => n.name == "Material Output") with
  | some n =>
    have hpred := List.find?_some hf
    rw [beq_iff_eq] at hpred
    simp [pick_output, hf, hpred]
  | none =>
    have hnc := (find_name_none_iff t "Material Output").mp hf
    simp [pick_output, hf, addNode, freshName, hnc, NType.baseName]

theorem pick_bsdf_name (t : NodeTree) : (pick_bsdf t).2.1.name = "Principled BSDF" := by
  cases hf : t.nodes.find? (fun n => n.name == "Principled BSDF") with
  | some n =>
    have hpred := List.find?_some hf
    rw [beq_iff_eq] at hpred
    simp [pick_bsdf, hf, hpred]
  | none =>
    have hnc := (find_name_none_iff t "Principled BSDF").mp hf
    simp [pick_bsdf, hf, addNode, freshName, hnc, NType.baseName]

theorem pick_output_mem (t : NodeTree) :
    ∃ n ∈ (pick_output t).1.nodes, n.name = "Material Output" := by
  cases hf : t.nodes.find? (fun n => n.name == "Material Output") with
  | some n =>
    have hpred := List.find?_some hf
    rw [beq_iff_eq] at hpred
    refine ⟨n, ?_, hpred⟩
    simp only [pick_output, hf]
    exact List.mem_of_find?_eq_some hf
  | none =>
    have hnc := (find_name_none_iff t "Material Output").mp hf
    refine ⟨SNode.mk (freshName (node_names t) "Material Output") NType.outputMaterial, ?_, ?_⟩
    · simp [pick_output, hf, addNode, NType.baseName]
    · simp [freshName, hnc]

theorem pick_bsdf_mem (t : NodeTree) :
    ∃ n ∈ (pick_bsdf t).1.nodes, n.name = "Principled BSDF" := by
  cases hf : t.nodes.find? (fun n => n.name == "Principled BSDF") with
  | some n =>
    have hpred := List.find?_some hf
    rw [beq_iff_eq] at hpred
    refine ⟨n, ?_, hpred⟩
    simp only [pick_bsdf, hf]
    exact List.mem_of_find?_eq_some hf
  | none =>
    have hnc := (find_name_none_iff t "Principled BSDF").mp hf
    refine ⟨SNode.mk (freshName (node_names t) "Principled BSDF") NType.bsdfPrincipled, ?_, ?_⟩
    · simp [pick_bsdf, hf, addNode, NType.baseName]
    · simp [freshName, hnc]

theorem pick_bsdf_nodes_mono (t : NodeTree) (n : SNode) (h : n ∈ t.nodes) :
    n ∈ (pick_bsdf t).1.nodes := by
  cases hf : t.nodes.find? (fun x => x.name == "Principled BSDF") with
  | some m => simpa [pick_bsdf, hf] using h
  | none => simp [pick_bsdf, hf, addNode, h]

theorem pick_output_warn (t : NodeTree) :
    (pick_output t).2.2 =
      if "Material Output" ∈ node_names t then [] else [missing_output_msg] := by
  cases hf : t.nodes.find? (fun n => n.name == "Material Output") with
  | some n =>
    have hpred := List.find?_some hf
    rw [beq_iff_eq] at hpred
    have hmem : "Material Output" ∈ node_names t := by
      simp only [node_names, List.mem_map]
      exact ⟨n, List.mem_of_find?_eq_some hf, hpred⟩
    simp [pick_output, hf, hmem]
  | none =>
    have hnc := (find_name_none_iff t "Material Output").mp hf
    simp [pick_output, hf, hnc]

theorem pick_bsdf_warn (t : NodeTree) :
    (pick_bsdf t).2.2 =
      if "Principled BSDF" ∈ node_names t then [] else [missing_bsdf_msg] := by
  cases hf : t.nodes.find? (fun n => n.name == "Principled BSDF") with
  | some n =>
    have hpred := List.find?_some hf
    rw [beq_iff_eq] at hpred
    have hmem : "Principled BSDF" ∈ node_names t := by
      simp only [node_names, List.mem_map]
      exact ⟨n, List.mem_of_find?_eq_some hf, hpred⟩
    simp [pick_bsdf, hf, hmem]
  | none =>
    have hnc := (find_name_none_iff t "Principled BSDF").mp hf
    simp [pick_bsdf, hf, hnc]

theorem wt_pick_output_type (t : NodeTree) (h : expected_names_well_typed t = true) :
    (pick_output t).2.1.ntype = NType.outputMaterial := by
  cases hf : t.nodes.find? (fun n => n.name == "Material Output") with
  | some n =>
    have hpred := List.find?_some hf
    rw [beq_iff_eq] at hpred
    have hty := (wt_node_type t h n (List.mem_of_find?_eq_some hf)).1 hpred
    simp [pick_output, hf, hty]
  | none => simp [pick_output, hf, addNode]

theorem wt_pick_bsdf_type (t : NodeTree) (h : expected_names_well_typed t = true) :
    (pick_bsdf t).2.1.ntype = NType.bsdfPrincipled := by
  cases hf : t.nodes.find? (fun n => n.name == "Principled BSDF") with
  | some n =>
    have hpred := List.find?_some hf
    rw [beq_iff_eq] at hpred
    have hty := (wt_node_type t h n (List.mem_of_find?_eq_some hf)).2 hpred
    simp [pick_bsdf, hf, hty]
  | none => simp [pick_bsdf, hf, addNode]

theorem wt_pick_output_wt (t : NodeTree) (h : expected_names_well_typed t = true) :
    expected_names_well_typed (pick_output t).1 = true := by
  cases hf : t.nodes.find? (fun n => n.name == "Material Output") with
  | some n => simpa [pick_output, hf] using h
  | none =>
    have hnc := (find_name_none_iff t "Material Output").mp hf
    have hfresh : freshName (node_names t) "Material Output" = "Material Output" := by
      simp [freshName, hnc]
    simp only [pick_output, hf, addNode, NType.baseName]
    rw [expected_names_well_typed, List.all_append]
    rw [expected_names_well_typed] at h
    rw [h, hfresh]
    decide

theorem head_plain_n_output (t : NodeTree) :
    (head_plain t).n_output.name = "Material Output" := by
  simp only [head_plain]
  exact pick_output_name t

theorem head_plain_n_bsdf (t : NodeTree) :
    (head_plain t).n_bsdf.name = "Principled BSDF" := by
  simp only [head_plain]
  exact pick_bsdf_name (pick_output t).1

theorem head_plain_count_warn (t : NodeTree) :
    count_warn_msg ∈ (head_plain t).warnings ↔ t.nodes.length ≠ 2 := by
  have hno : count_warn_msg ≠ missing_output_msg := by decide
  have hnb : count_warn_msg ≠ missing_bsdf_msg := by decide
  simp only [head_plain, List.mem_append]
  constructor
  · intro h
    rcases h with (h | h) | h
    · by_cases hlen : t.nodes.length ≠ 2
      · exact hlen
      · simp [hlen] at h
    · rw [pick_output_warn] at h
      by_cases hc : "Material Output" ∈ node_names t
      · simp [hc] at h
      · simp [hc] at h
        exact absurd h hno
    · rw [pick_bsdf_warn] at h
      by_cases hc : "Principled BSDF" ∈ node_names (pick_output t).1
      · simp [hc] at h
      · simp [hc] at h
        exact absurd h hnb
  · intro hlen
    left
    left
    simp [hlen]

theorem head_plain_output_warn (t : NodeTree)
    (hc : "Material Output" ∉ node_names t) :
    missing_output_msg ∈ (head_plain t).warnings := by
  simp only [head_plain, List.mem_append]
  left
  right
  rw [pick_output_warn]
  simp [hc]

theorem head_plain_bsdf_warn (t : NodeTree)
    (hc : "Principled BSDF" ∉ node_names (pick_output t).1) :
    missing_bsdf_msg ∈ (head_plain t).warnings := by
  simp only [head_plain, List.mem_append]
  right
  rw [pick_bsdf_warn]
  simp [hc]

theorem head_plain_output_mem (t : NodeTree) :
    ∃ n ∈ (head_plain t).tree.nodes, n.name = "Material Output" := by
  obtain ⟨n, hn, hname⟩ := pick_output_mem t
  have hn2 : n ∈ (pick_bsdf (pick_output t).1).1.nodes := pick_bsdf_nodes_mono _ n hn
  refine ⟨n, ?_, hname⟩
  simp only [head_plain]
  by_cases hl : (pick_bsdf (pick_output t).1).1.links.any
      (fun l => (l.src == (pick_bsdf (pick_output t).1).2.1.name) &&
        (l.dst == (pick_output t).2.1.name)) = true
  · rw [if_pos hl]
    exact hn2
  · rw [if_neg hl]
    exact hn2

theorem head_plain_bsdf_mem (t : NodeTree) :
    ∃ n ∈ (head_plain t).tree.nodes, n.name = "Principled BSDF" := by
  obtain ⟨n, hn, hname⟩ := pick_bsdf_mem (pick_output t).1
  refine ⟨n, ?_, hname⟩
  simp only [head_plain]
  by_cases hl : (pick_bsdf (pick_output t).1).1.links.any
      (fun l => (l.src == (pick_bsdf (pick_output t).1).2.1.name) &&
        (l.dst == (pick_output t).2.1.name)) = true
  · rw [if_pos hl]
    exact hn
  · rw [if_neg hl]
    exact hn

theorem head_plain_link (t : NodeTree) :
    ∃ l ∈ (head_plain t).tree.links,
      l.src = (head_plain t).n_bsdf.name ∧ l.dst = (head_plain t).n_output.name := by
  simp only [head_plain]
  by_cases hl : (pick_bsdf (pick_output t).1).1.links.any
      (fun l => (l.src == (pick_bsdf (pick_output t).1).2.1.name) &&
        (l.dst == (pick_output t).2.1.name)) = true
  · rw [if_pos hl]
    obtain ⟨l, hmem, hp⟩ := List.any_eq_true.mp hl
    rw [Bool.and_eq_true, beq_iff_eq, beq_iff_eq] at hp
    exact ⟨l, hmem, hp.1, hp.2⟩
  · rw [if_neg hl]
    refine ⟨SLink.mk (pick_bsdf (pick_output t).1).2.1.name "BSDF"
      (pick_output t).2.1.name "Surface", ?_, rfl, rfl⟩
    simp [addLink]

theorem setup_head_ok (t : NodeTree) (hwt : expected_names_well_typed t = true) :
    setup_head t = Except.ok (head_plain t) := by
  have hot : (pick_output t).2.1.ntype = NType.outputMaterial := wt_pick_output_type t hwt
  have hwt1 : expected_names_well_typed (pick_output t).1 = true := wt_pick_output_wt t hwt
  have hbt : (pick_bsdf (pick_output t).1).2.1.ntype = NType.bsdfPrincipled :=
    wt_pick_bsdf_type (pick_output t).1 hwt1
  have he_b : (pick_bsdf (pick_output t).1).2.1 =
      SNode.mk (pick_bsdf (pick_output t).1).2.1.name NType.bsdfPrincipled := by
    rw [← hbt]
  have he_o : (pick_output t).2.1 =
      SNode.mk (pick_output t).2.1.name NType.outputMaterial := by
    rw [← hot]
  have hso : sockOut (pick_bsdf (pick_output t).1).2.1 (SockKey.name "BSDF") =
      Except.ok "BSDF" := by
    rw [he_b]
    rfl
  have hsi0 : sockIn (pick_output t).2.1 (SockKey.name "Surface") = Except.ok "Surface" := by
    rw [he_o]
    rfl
  have hsi1 : sockIn (pick_bsdf (pick_output t).1).2.1 (SockKey.name "Subsurface") =
      Except.ok "Subsurface" := by
    rw [he_b]
    rfl
  have hsi2 : sockIn (pick_bsdf (pick_output t).1).2.1 (SockKey.name "Subsurface Color") =
      Except.ok "Subsurface Color" := by
    rw [he_b]
    rfl
  have hsi3 : sockIn (pick_bsdf (pick_output t).1).2.1 (SockKey.name "Metallic") =
      Except.ok "Metallic" := by
    rw [he_b]
    rfl
  by_cases hl : (pick_bsdf (pick_output t).1).1.links.any
      (fun l => (l.src == (pick_bsdf (pick_output t).1).2.1.name) &&
        (l.dst == (pick_output t).2.1.name)) = true
  · simp only [setup_head, head_plain, link_new, set_input, Bind.bind, Except.bind,
      hso, hsi0, hsi1, hsi2, hsi3, hl, if_true]
  · simp only [setup_head, head_plain, link_new, set_input, Bind.bind, Except.bind,
      hso, hsi0, hsi1, hsi2, hsi3, hl, if_false, Bool.false_eq_true]

set_option maxHeartbeats 1000000 in
theorem network_chain_node_mem (tr : NodeTree) (b : String) (n : SNode) (h : n ∈ tr.nodes) :
    n ∈ (network_chain tr b).nodes := by
  simp [network_chain, addNode, addLink, h]

set_option maxHeartbeats 1000000 in
theorem network_chain_link_mem (tr : NodeTree) (b : String) (l : SLink) (h : l ∈ tr.links) :
    l ∈ (network_chain tr b).links := by
  simp [network_chain, addNode, addLink, h]

/-- C9 amended: with an explicit reference empty, for every material node
tree in which each pre-existing node named Material Output or Principled
BSDF has the corresponding type, `setup_material_metal_tool_cap` completes
without raising: a node count different from 2 only produces a warning, a
missing Material Output or Principled BSDF node is warned about, created
under that exact name and substituted, and the result contains nodes with
both names together with a link from the BSDF node to the output node.  On a
tree where a name-matched node has a different type, the socket subscripts
of lines 78 and 81 to 83 raise a KeyError instead, so the original
unconditional completion guarantee does not hold. -/
theorem c9_amended :
    ∀ tree : NodeTree, expected_names_well_typed tree = true →
      ∃ r : MatResult,
        setup_material_metal_tool_cap tree = Except.ok r ∧
        (count_warn_msg ∈ r.warnings ↔ tree.nodes.length ≠ 2) ∧
        r.n_output = "Material Output" ∧
        r.n_bsdf = "Principled BSDF" ∧
        (∃ n ∈ r.tree.nodes, n.name = "Material Output") ∧
        (∃ n ∈ r.tree.nodes, n.name = "Principled BSDF") ∧
        (∃ l ∈ r.tree.links, l.src = "Principled BSDF" ∧ l.dst = "Material Output") ∧
        ("Material Output" ∉ node_names tree → missing_output_msg ∈ r.warnings) ∧
        ("Principled BSDF" ∉ node_names (pick_output tree).1 →
          missing_bsdf_msg ∈ r.warnings) := by
  intro tree hwt
  have hhead := setup_head_ok tree hwt
  have hbn : (head_plain tree).n_bsdf = (pick_bsdf (pick_output tree).1).2.1 := by
    simp only [head_plain]
  have hwt1 := wt_pick_output_wt tree hwt
  have hbt : (head_plain tree).n_bsdf.ntype = NType.bsdfPrincipled := by
    rw [hbn]
    exact wt_pick_bsdf_type (pick_output tree).1 hwt1
  have he : (head_plain tree).n_bsdf =
      SNode.mk (head_plain tree).n_bsdf.name NType.bsdfPrincipled := by
    rw [← hbt]
  have hnet : setup_network_tree (head_plain tree).tree (head_plain tree).n_bsdf =
      Except.ok (network_chain (head_plain tree).tree (head_plain tree).n_bsdf.name) := by
    rw [he]
    exact setup_network_tree_bsdf (head_plain tree).tree (head_plain tree).n_bsdf.name
  refine ⟨MatResult.mk
      (network_chain (head_plain tree).tree (head_plain tree).n_bsdf.name)
      (head_plain tree).warnings (head_plain tree).n_output.name
      (head_plain tree).n_bsdf.name,
    ?_, ?_, ?_, ?_, ?_, ?_, ?_, ?_, ?_⟩
  · simp only [setup_material_metal_tool_cap, Bind.bind, Except.bind, hhead, hnet]
  · exact head_plain_count_warn tree
  · exact head_plain_n_output tree
  · exact head_plain_n_bsdf tree
  · obtain ⟨n, hn, hname⟩ := head_plain_output_mem tree
    exact ⟨n, network_chain_node_mem _ _ n hn, hname⟩
  · obtain ⟨n, hn, hname⟩ := head_plain_bsdf_mem tree
    exact ⟨n, network_chain_node_mem _ _ n hn, hname⟩
  · obtain ⟨l, hl, h1, h2⟩ := head_plain_link tree
    refine ⟨l, network_chain_link_mem _ _ l hl, ?_, ?_⟩
    · rw [h1]
      exact head_plain_n_bsdf tree
    · rw [h2]
      exact head_plain_n_output tree
  · intro hc
    exact head_plain_output_warn tree hc
  · intro hc
    exact head_plain_bsdf_warn tree hc

/-- Witness for `c9_amended` at the empty node tree, whose expected names
are vacuously well typed: the function completes, both missing-node warnings
fire, and the chosen node names are the substituted defaults. -/
theorem c9_amended_witness :
    ∃ r : MatResult,
      setup_material_metal_tool_cap ⟨[], []⟩ = Except.ok r ∧
      missing_output_msg ∈ r.warnings ∧
      missing_bsdf_msg ∈ r.warnings ∧
      r.n_output = "Material Output" ∧
      r.n_bsdf = "Principled BSDF" := by
  obtain ⟨r, hok, hcw, hno, hnb, hmo, hpb, hlink, hw1, hw2⟩ := c9_amended ⟨[], []⟩ rfl
  exact ⟨r, hok, hw1 (by decide), hw2 (by decide), hno, hnb⟩

end ABR
